import Mathlib

/-!
# code-to-image: the POST /image rendering pipeline

A shallow embedding of `src/index.js`: request destructuring, the brace-aware
re-indentation, line numbers, theme / background / file-name resolution, the
composed document, the browser session singleton and the request handler.

JavaScript strings are modelled as Lean strings (sequences of code points; lone
surrogates are outside the model).  External collaborators (the highlighter, the
digest, the automation engine) enter as parameters or as per-call outcomes.
-/

namespace CodeToImage

/-! ## Definitions -/

/-! ### JavaScript values of a parsed JSON body -/

/-- A value produced by `JSON.parse`.  A number is carried by its `Number::toString`
rendering (`"0"` for zero, so `num "0"` is the only falsy number; JSON has no NaN). -/
inductive JVal where
  | null
  | bool (b : Bool)
  | num (repr : String)
  | str (s : String)
  | arr (xs : List JVal)
  | obj (kvs : List (String × JVal))

/-- A thrown JavaScript error object; only its `message` is ever observed. -/
structure JsError where
  message : String
deriving DecidableEq, Repr

/-- The parsed request body `req.body`: a JSON object with distinct keys. -/
abbrev Body := List (String × JVal)

/-- ToBoolean, as used by `!code`, `a || b` and `c ? x : y`. -/
def JVal.truthy : JVal → Bool
  | .null => false
  | .bool b => b
  | .num r => r != "0"
  | .str s => s != ""
  | .arr _ => true
  | .obj _ => true

/-- Strict equality `v === 'literal'` against a string literal. -/
def JVal.strictEqStr : JVal → String → Bool
  | .str t, s => t == s
  | _, _ => false

/-- The TypeError raised by ToPrimitive on an object whose own `toString` is not callable. -/
def toPrimitiveError : JsError := ⟨"Cannot convert object to primitive value"⟩

mutual
/-- ToString, as applied by template literals and by property-key coercion.
An array is its elements joined by `,`; a plain object is `[object Object]` unless an own
`toString` key (never callable in parsed JSON) shadows `Object.prototype.toString`. -/
def JVal.toStr : JVal → Except JsError String
  | .null => .ok "null"
  | .bool b => .ok (if b then "true" else "false")
  | .num r => .ok r
  | .str s => .ok s
  | .arr xs => JVal.joinWith "," xs
  | .obj kvs =>
      if (kvs.map Prod.fst).contains "toString" then .error toPrimitiveError
      else .ok "[object Object]"
termination_by structural v => v
/-- The method `Array.prototype.join(sep)`: `null` elements render as the empty string. -/
def JVal.joinWith (sep : String) : List JVal → Except JsError String
  | [] => .ok ""
  | [x] => (match x with
      | .null => .ok ""
      | v => JVal.toStr v)
  | x :: y :: rest => do
      let a ← (match x with
        | .null => .ok ""
        | v => JVal.toStr v)
      let b ← JVal.joinWith sep (y :: rest)
      pure (a ++ sep ++ b)
termination_by structural xs => xs
end

/-- The names every object literal inherits from `Object.prototype`. -/
def objectPrototypeNames : List String :=
  ["constructor", "__defineGetter__", "__defineSetter__", "hasOwnProperty",
   "__lookupGetter__", "__lookupSetter__", "isPrototypeOf", "propertyIsEnumerable",
   "toString", "valueOf", "__proto__", "toLocaleString"]

/-- ToString of the inherited member read under `name`: `__proto__` reads `Object.prototype`
itself, `constructor` reads the function `Object`, the rest are native methods. -/
def inheritedToStr (name : String) : String :=
  if name = "__proto__" then "[object Object]"
  else if name = "constructor" then "function Object() \x7b [native code] \x7d"
  else "function " ++ name ++ "() \x7b [native code] \x7d"

/-- The result of reading `table[key]` on an object literal. -/
inductive Lookup (α : Type) where
  | own (v : α)
  | inherited (name : String)
  | undefined
deriving DecidableEq, Repr

/-- Property read `table[key]` on an object literal whose own entries are `table`. -/
def getProp {α : Type} (table : List (String × α)) (key : String) : Lookup α :=
  match table.lookup key with
  | some v => .own v
  | none => if objectPrototypeNames.contains key then .inherited key else .undefined

/-- A value that ends up interpolated into the document: a string computed by the handler,
a request value passed through, or a member inherited from `Object.prototype`. -/
inductive StyleValue where
  | text (s : String)
  | json (v : JVal)
  | inherited (name : String)

/-- ToString of an interpolated value. -/
def StyleValue.toStr : StyleValue → Except JsError String
  | .text s => .ok s
  | .json v => v.toStr
  | .inherited n => .ok (inheritedToStr n)

/-! ### String primitives used on the code -/

/-- The call `s.replace(/\r\n/g, '\n')`: one left-to-right pass. -/
def replaceCrLf : List Char → List Char
  | [] => []
  | [c] => [c]
  | c :: d :: rest =>
      if c = '\r' ∧ d = '\n' then '\n' :: replaceCrLf rest
      else c :: replaceCrLf (d :: rest)

/-- The call `s.split('\n')`; the empty string splits into one empty line. -/
def splitNewline : List Char → List (List Char)
  | [] => [[]]
  | c :: rest =>
      if c = '\n' then [] :: splitNewline rest
      else match splitNewline rest with
        | [] => [[c]]
        | l :: ls => (c :: l) :: ls

/-- The call `lines.join('\n')`. -/
def joinNewline : List (List Char) → List Char
  | [] => []
  | [l] => l
  | l :: m :: rest => l ++ '\n' :: joinNewline (m :: rest)

/-- The code points stripped by `String.prototype.trim`: WhiteSpace and LineTerminator. -/
def isJsWhiteSpace (c : Char) : Bool :=
  let n := c.toNat
  n == 9 || n == 10 || n == 11 || n == 12 || n == 13 || n == 32 || n == 160 || n == 5760
    || (8192 ≤ n && n ≤ 8202) || n == 8232 || n == 8233 || n == 8239 || n == 8287
    || n == 12288 || n == 65279

/-- The call `s.trim()`. -/
def jsTrim (s : List Char) : List Char :=
  ((s.dropWhile isJsWhiteSpace).reverse.dropWhile isJsWhiteSpace).reverse

/-- The call `'  '.repeat(n)`; the handler only calls it with `n ≥ 0`. -/
def repeatTwoSpaces (n : Int) : List Char :=
  (List.replicate n.toNat [' ', ' ']).flatten

/-! ### Re-indentation and line numbers (index.js 258-294) -/

/-- One call of the arrow function passed to `lines.map` (index.js 267-284), with the
captured counter `indent` threaded explicitly: the emitted line and the counter after it. -/
def indentLine (indent : Int) (line : List Char) : List Char × Int :=
  let currentIndent := indent
  let trimmedLine := jsTrim line
  let closing := trimmedLine.contains '}' && !trimmedLine.contains '{'
  let indent := if closing then max 0 (indent - 1) else indent
  let currentIndent := if closing then indent else currentIndent
  let opening := trimmedLine.contains '{' && !trimmedLine.contains '}'
  let currentIndent := if opening then indent else currentIndent
  let indent := if opening then indent + 1 else indent
  (if trimmedLine ≠ [] then repeatTwoSpaces currentIndent ++ trimmedLine else [], indent)

/-- The call `lines.map(line => ...)` with the counter starting at `indent`. -/
def indentLines : Int → List (List Char) → List (List Char)
  | _, [] => []
  | indent, line :: rest =>
      (indentLine indent line).1 :: indentLines (indentLine indent line).2 rest

/-- The variable `formattedCode` (index.js 260-285) for a string `code`. -/
def formattedCode (code : String) (language : JVal) : String :=
  let normalized := replaceCrLf code.data
  if language.strictEqStr "javascript" || language.strictEqStr "typescript" then
    ⟨joinNewline (indentLines 0 (splitNewline normalized))⟩
  else ⟨normalized⟩

/-- The constant `lineCount` (index.js 291). -/
def lineCount (formatted : String) : Nat :=
  (splitNewline formatted.data).length

/-- The numbers `1 .. n` joined by newlines: `Array.from(..., (_, i) => i + 1).join('\n')`. -/
def numberColumn (n : Nat) : String :=
  "\n".intercalate ((List.range n).map fun i => toString (i + 1))

/-- The constant `lineNumbers` (index.js 292-294). -/
def lineNumbers (showLineNumbers : JVal) (formatted : String) : String :=
  if showLineNumbers.truthy then numberColumn (lineCount formatted) else ""

/-! ### Theme and background registry (index.js 27-165) -/

/-- One palette of the object `themes`: its 8 colour roles. -/
structure ThemeSpec where
  bg : String
  fg : String
  highlight : String
  comment : String
  windowBg : String
  string : String
  number : String
  property : String
deriving DecidableEq, Repr

/-- The palette `themes.dracula`. -/
def theme_dracula : ThemeSpec :=
  { bg := "#282a36",
    fg := "#f8f8f2",
    highlight := "#ff79c6",
    comment := "#6272a4",
    windowBg := "#1e1f29",
    string := "#a9dc76",
    number := "#bd93f9",
    property := "#66d9ef" }

/-- The palette `themes.light`. -/
def theme_light : ThemeSpec :=
  { bg := "#ffffff",
    fg := "#333333",
    highlight := "#0077b5",
    comment := "#888888",
    windowBg := "#f5f5f5",
    string := "#50a14f",
    number := "#986801",
    property := "#e45649" }

/-- The palette `themes.gradient`. -/
def theme_gradient : ThemeSpec :=
  { bg := "linear-gradient(135deg, #0077b5, #00a0dc)",
    fg := "#ffffff",
    highlight := "#ffffff",
    comment := "#e1e1e1",
    windowBg := "#ffffff",
    string := "#d4ff80",
    number := "#ffcfd7",
    property := "#a2eeff" }

/-- The palette `themes.github`. -/
def theme_github : ThemeSpec :=
  { bg := "#ffffff",
    fg := "#24292e",
    highlight := "#005cc5",
    comment := "#6a737d",
    windowBg := "#f6f8fa",
    string := "#22863a",
    number := "#e36209",
    property := "#d73a49" }

/-- The palette `themes.modern`. -/
def theme_modern : ThemeSpec :=
  { bg := "#1a1a1a",
    fg := "#f8f8f2",
    highlight := "#79b8ff",
    comment := "#959da5",
    windowBg := "#121212",
    string := "#9ece6a",
    number := "#ff79c6",
    property := "#7dcfff" }

/-- The palette `themes.minimal`. -/
def theme_minimal : ThemeSpec :=
  { bg := "#ffffff",
    fg := "#222222",
    highlight := "#2d68c4",
    comment := "#989898",
    windowBg := "#fafafa",
    string := "#3e8774",
    number := "#b76b01",
    property := "#df4353" }

/-- The palette `themes.carbon`. -/
def theme_carbon : ThemeSpec :=
  { bg := "#151718",
    fg := "#e6e6e6",
    highlight := "#5ab3ff",
    comment := "#a0a0a0",
    windowBg := "#0d0e0f",
    string := "#9ece6a",
    number := "#ffb86c",
    property := "#5ab3ff" }

/-- The palette `themes.nord`. -/
def theme_nord : ThemeSpec :=
  { bg := "#2e3440",
    fg := "#d8dee9",
    highlight := "#88c0d0",
    comment := "#636f88",
    windowBg := "#232730",
    string := "#a3be8c",
    number := "#b48ead",
    property := "#81a1c1" }

/-- The palette `themes.solarized`. -/
def theme_solarized : ThemeSpec :=
  { bg := "#fdf6e3",
    fg := "#657b83",
    highlight := "#268bd2",
    comment := "#93a1a1",
    windowBg := "#eee8d5",
    string := "#2aa198",
    number := "#d33682",
    property := "#6c71c4" }

/-- The palette `themes.onedark`. -/
def theme_onedark : ThemeSpec :=
  { bg := "#282c34",
    fg := "#abb2bf",
    highlight := "#61afef",
    comment := "#5c6370",
    windowBg := "#21252b",
    string := "#98c379",
    number := "#d19a66",
    property := "#e06c75" }

/-- The palette `themes["linkedin-pro"]`. -/
def theme_linkedin_pro : ThemeSpec :=
  { bg := "#1d2026",
    fg := "#e4e6eb",
    highlight := "#0a66c2",
    comment := "#8f9299",
    windowBg := "#16181d",
    string := "#5caa70",
    number := "#c27ba0",
    property := "#64a5d6" }

/-- The own entries of the object `themes`, in source order. -/
def themes : List (String × ThemeSpec) :=
  [("dracula", theme_dracula),
   ("light", theme_light),
   ("gradient", theme_gradient),
   ("github", theme_github),
   ("modern", theme_modern),
   ("minimal", theme_minimal),
   ("carbon", theme_carbon),
   ("nord", theme_nord),
   ("solarized", theme_solarized),
   ("onedark", theme_onedark),
   ("linkedin-pro", theme_linkedin_pro)]

/-- The own entries of the object `gradients`, in source order. -/
def gradients : List (String × String) :=
  [("linkedin", "linear-gradient(135deg, #0077b5, #00a0dc)"),
   ("bluemarine", "linear-gradient(135deg, #1e3c72, #2a5298)"),
   ("sunset", "linear-gradient(135deg, #ff7e5f, #feb47b)"),
   ("emerald", "linear-gradient(135deg, #43cea2, #185a9d)"),
   ("passion", "linear-gradient(135deg, #f43b47, #453a94)"),
   ("cool", "linear-gradient(135deg, #4facfe, #00f2fe)"),
   ("warm", "linear-gradient(135deg, #ff9966, #ff5e62)"),
   ("night", "linear-gradient(135deg, #0f2027, #203a43, #2c5364)"),
   ("royal", "linear-gradient(135deg, #141e30, #243b55)"),
   ("silver", "linear-gradient(135deg, #bdc3c7, #2c3e50)"),
   ("subtle", "linear-gradient(135deg, #f5f7fa, #c3cfe2)"),
   ("elegant", "linear-gradient(135deg, #08203e, #557c93)"),
   ("tech", "linear-gradient(135deg, #051937, #004d7a, #008793)"),
   ("faded", "linear-gradient(135deg, rgba(0,0,0,0.03), rgba(0,0,0,0.08))"),
   ("shadow", "linear-gradient(135deg, rgba(15,23,42,0.2), rgba(15,23,42,0.1))"),
   ("fiery", "linear-gradient(135deg, #f12711, #f5af19)"),
   ("vivid", "linear-gradient(135deg, #ee0979, #ff6a00)"),
   ("crimson", "linear-gradient(135deg, #8E0E00, #1F1C18)"),
   ("redhot", "linear-gradient(135deg, #CB356B, #BD3F32)"),
   ("ember", "linear-gradient(135deg, #ff4e50, #f9d423)"),
   ("flame", "linear-gradient(135deg, #ff416c, #ff4b2b)")]

/-- The preset `shadowStyle.light`. -/
def shadowStyle_light : String := "rgba(0, 0, 0, 0.1) 0px 4px 12px"

/-- The own entries of the object `shadowStyle` (index.js 297-301). -/
def shadowStyle : List (String × String) :=
  [("light", shadowStyle_light),
   ("medium", "rgba(0, 0, 0, 0.15) 0px 5px 15px"),
   ("heavy", "rgba(0, 0, 0, 0.25) 0px 8px 24px")]

/-- The own entries of the object `extensions` (index.js 326-341). -/
def extensions : List (String × String) :=
  [("javascript", "js"),
   ("typescript", "ts"),
   ("python", "py"),
   ("java", "java"),
   ("csharp", "cs"),
   ("cpp", "cpp"),
   ("php", "php"),
   ("ruby", "rb"),
   ("go", "go"),
   ("rust", "rs"),
   ("swift", "swift"),
   ("kotlin", "kt"),
   ("html", "html"),
   ("css", "css")]

/-- The inline glyph `icons.javascript` (index.js 349). -/
def icon_javascript : String :=
  "<svg xmlns=\"http://www.w3.org/2000/svg\" width=\"16\" height=\"16\" viewBox=\"0 0 24 24\" fill=\"#F7DF1E\"><path d=\"M0 0h24v24H0V0zm22.034 18.276c-.175-1.095-.888-2.015-3.003-2.873-.736-.345-1.554-.585-1.797-1.14-.091-.33-.105-.51-.046-.705.15-.646.915-.84 1.515-.66.39.12.75.42.976.9 1.034-.676 1.034-.676 1.755-1.125-.27-.42-.404-.601-.586-.78-.63-.705-1.469-1.065-2.834-1.034l-.705.089c-.676.165-1.32.525-1.71 1.005-1.14 1.291-.811 3.541.569 4.471 1.365 1.02 3.361 1.244 3.616 2.205.24 1.17-.87 1.545-1.966 1.41-.811-.18-1.26-.586-1.755-1.336l-1.83 1.051c.21.48.45.689.81 1.109 1.74 1.756 6.09 1.666 6.871-1.004.029-.09.24-.705.074-1.65l.046.067zm-8.983-7.245h-2.248c0 1.938-.009 3.864-.009 5.805 0 1.232.063 2.363-.138 2.711-.33.689-1.18.601-1.566.48-.396-.196-.597-.466-.83-.855-.063-.105-.11-.196-.127-.196l-1.825 1.125c.305.63.75 1.172 1.324 1.517.855.51 2.004.675 3.207.405.783-.226 1.458-.691 1.811-1.411.51-.93.402-2.07.397-3.346.012-2.054 0-4.109 0-6.179l.004-.056z\"/></svg>"

/-- The inline glyph `icons.typescript` (index.js 350). -/
def icon_typescript : String :=
  "<svg xmlns=\"http://www.w3.org/2000/svg\" width=\"16\" height=\"16\" viewBox=\"0 0 24 24\" fill=\"#3178C6\"><path d=\"M1.125 0C.502 0 0 .502 0 1.125v21.75C0 23.498.502 24 1.125 24h21.75c.623 0 1.125-.502 1.125-1.125V1.125C24 .502 23.498 0 22.875 0zm17.363 9.75c.612 0 1.154.037 1.627.111a6.38 6.38 0 0 1 1.306.34v2.458a3.95 3.95 0 0 0-.643-.361 5.093 5.093 0 0 0-.717-.26 5.453 5.453 0 0 0-1.426-.2c-.3 0-.573.028-.819.086a2.1 2.1 0 0 0-.623.242c-.17.104-.3.229-.393.374a.888.888 0 0 0-.14.49c0 .196.053.373.156.529.104.156.252.304.443.444s.423.276.696.41c.273.135.582.274.926.416.47.197.892.407 1.266.628.374.222.695.473.963.753.268.279.472.598.614.957.142.359.214.776.214 1.253 0 .657-.125 1.21-.373 1.656a3.033 3.033 0 0 1-1.012 1.085 4.38 4.38 0 0 1-1.487.596c-.566.12-1.163.18-1.79.18a9.916 9.916 0 0 1-1.84-.164 5.544 5.544 0 0 1-1.512-.493v-2.63a5.033 5.033 0 0 0 3.237 1.2c.333 0 .624-.03.872-.09.249-.06.456-.144.623-.25.166-.108.29-.234.373-.38a1.023 1.023 0 0 0-.074-1.089 2.12 2.12 0 0 0-.537-.5 5.597 5.597 0 0 0-.807-.444 27.72 27.72 0 0 0-1.007-.436c-.918-.383-1.602-.852-2.053-1.405-.45-.553-.676-1.222-.676-2.005 0-.614.123-1.141.369-1.582.246-.441.58-.804 1.004-1.089a4.494 4.494 0 0 1 1.47-.629 7.536 7.536 0 0 1 1.77-.201zm-15.113.188h9.563v2.166H9.506v9.646H6.789v-9.646H3.375z\"/></svg>"

/-- The inline glyph `icons.python` (index.js 351). -/
def icon_python : String :=
  "<svg xmlns=\"http://www.w3.org/2000/svg\" width=\"16\" height=\"16\" viewBox=\"0 0 24 24\"><path fill=\"#3776AB\" d=\"M14.25.18l.9.2.73.26.59.3.45.32.34.34.25.34.16.33.1.3.04.26.02.2-.01.13V8.5l-.05.63-.13.55-.21.46-.26.38-.3.31-.33.25-.35.19-.35.14-.33.1-.3.07-.26.04-.21.02.13.01h-5.84l-.69.05-.59.14-.5.22-.41.27-.33.32-.27.35-.2.36-.15.37-.1.35-.07.32-.04.27-.02.21v3.06H3.17l-.21-.03-.28-.07-.32-.12-.35-.18-.36-.26-.36-.36-.35-.46-.32-.59-.28-.73-.21-.88-.14-1.05-.05-1.23.06-1.22.16-1.04.24-.87.32-.71.36-.57.4-.44.42-.33.42-.24.4-.16.36-.1.32-.05.24-.01h.16l.06.01h8.16v-.83H6.18l-.01-2.75-.02-.37.05-.34.11-.31.17-.28.25-.26.31-.23.38-.2.44-.18.51-.15.58-.12.64-.1.71-.06.77-.04.84-.02 1.27.05zm-6.3 1.98l-.23.33-.08.41.08.41.23.34.33.22.41.09.41-.09.33-.22.23-.34.08-.41-.08-.41-.23-.33-.33-.22-.41-.09-.41.09zm13.09 3.95l.28.06.32.12.35.18.36.27.36.35.35.47.32.59.28.73.21.88.14 1.04.05 1.23-.06 1.23-.16 1.04-.24.86-.32.71-.36.57-.4.45-.42.33-.42.24-.4.16-.36.09-.32.05-.24.02-.16-.01h-8.22v.82h5.84l.01 2.76.02.36-.05.34-.11.31-.17.29-.25.25-.31.24-.38.2-.44.17-.51.15-.58.13-.64.09-.71.07-.77.04-.84.01-1.27-.04-1.07-.14-.9-.2-.73-.25-.59-.3-.45-.33-.34-.34-.25-.34-.16-.33-.1-.3-.04-.25-.02-.2.01-.13v-5.34l.05-.64.13-.54.21.46.26.38.3.32.33.24.35.2.35.14.33.1.3.06.26.04.21.02.13.01h5.84l.69-.05.59-.14.5-.21.41-.28.33-.32.27-.35.2-.36.15-.36.1-.35.07-.32.04-.28.02-.21V6.07h2.09l.14.01zm-6.47 14.25l-.23.33-.08.41.08.41.23.33.33.23.41.08.41-.08.33-.23.23-.33.08-.41-.08-.41-.23-.33-.33-.23-.41-.08-.41.08z\"/></svg>"

/-- The inline glyph `icons.go` (index.js 352). -/
def icon_go : String :=
  "<svg xmlns=\"http://www.w3.org/2000/svg\" width=\"16\" height=\"16\" viewBox=\"0 0 24 24\" fill=\"#00ADD8\"><path d=\"M1.811 10.231c-.047 0-.058-.023-.035-.059l.246-.315c.023-.035.081-.058.128-.058h4.172c.046 0 .058.035.035.07l-.199.303c-.023.036-.082.07-.117.07zM.047 11.306c-.047 0-.059-.023-.035-.058l.245-.316c.023-.035.082-.058.129-.058h5.328c.047 0 .07.035.058.07l-.093.28c-.012.047-.058.07-.105.07zm2.828 1.075c-.047 0-.059-.035-.035-.07l.163-.292c.023-.035.07-.07.117-.07h2.337c.047 0 .07.035.07.082l-.023.28c0 .047-.047.082-.082.082zm12.129-2.36c-.736.187-1.239.327-1.963.514-.176.046-.187.058-.34-.117-.174-.199-.303-.327-.548-.444-.737-.362-1.45-.257-2.115.175-.795.514-1.204 1.274-1.192 2.22.011.935.654 1.706 1.577 1.835.795.105 1.46-.175 1.987-.77.105-.13.198-.27.315-.434H10.47c-.245 0-.304-.152-.222-.35.152-.362.432-.97.596-1.274a.315.315 0 01.292-.187h4.253c-.023.316-.023.631-.07.947a4.983 4.983 0 01-.958 2.29c-.841 1.11-1.94 1.8-3.33 1.986-1.145.152-2.209-.07-3.143-.77-.865-.655-1.356-1.52-1.484-2.595-.152-1.274.222-2.419.993-3.424.83-1.086 1.928-1.776 3.272-2.02 1.098-.2 2.15-.07 3.096.571.62.41 1.063.97 1.356 1.648.07.105.023.164-.117.199 M19.337 19.722c-1.5-.868-2.337-2.23-2.337-3.991 0-1.087.386-1.98.902-2.731.394-.56.807-1.038 1.39-1.414v-.187h-4.056c-.012 0-.023-.012-.035 0l-2.026 5.241a.97.97 0 00-.035.304c-.023 1.5.338 2.8 1.133 3.991.632.949 1.459 1.674 2.499 2.142.458.2.916.35 1.414.458h1.344c.082 0 .152-.035.187-.105.079-.152.158-.304.234-.458.153-.328.317-.645.446-.982z\"/></svg>"

/-- The generic fallback glyph (index.js 355). -/
def icon_generic : String :=
  "<svg xmlns=\"http://www.w3.org/2000/svg\" width=\"16\" height=\"16\" viewBox=\"0 0 24 24\" fill=\"#555\"><path d=\"M22 0H2v24h20V0zM7 22H4v-3h3v3zm0-5H4v-3h3v3zm0-5H4V9h3v3zm0-5H4V4h3v3zm5 15H9v-3h3v3zm0-5H9v-3h3v3zm0-5H9V9h3v3zm0-5H9V4h3v3zm5 15h-3v-3h3v3zm0-5h-3v-3h3v3zm0-5h-3V9h3v3zm0-5h-3V4h3v3z\"/></svg>"

/-- The own entries of the object `icons` (index.js 348-353). -/
def icons : List (String × String) :=
  [("javascript", icon_javascript), ("typescript", icon_typescript), ("python", icon_python), ("go", icon_go)]

/-! ### Request parameters (index.js 221-243) -/

/-- The destructured request parameters.  `code` has no default and stays `none` when the
body has no such field; every other field holds the body's value or its default. -/
structure Params where
  code : Option JVal
  language : JVal
  theme : JVal
  fontSize : JVal
  radius : JVal
  padding : JVal
  containerMargin : JVal
  gradientPadding : JVal
  gradientOpacity : JVal
  shadow : JVal
  shadowIntensity : JVal
  showLineNumbers : JVal
  lineNumbersStyle : JVal
  showWindowControls : JVal
  showTab : JVal
  fileName : JVal
  title : JVal
  watermark : JVal
  background : JVal
  gradientAngle : JVal
  squareImage : JVal

/-- A destructuring pattern entry `name = dflt`: the default replaces only an absent field. -/
def fieldOr (body : Body) (name : String) (dflt : JVal) : JVal :=
  (body.lookup name).getD dflt

/-- The destructuring assignment `const { code, language = 'javascript', ... } = req.body`. -/
def destructure (body : Body) : Params :=
  { code := body.lookup "code",
    language := fieldOr body "language" (.str "javascript"),
    theme := fieldOr body "theme" (.str "light"),
    fontSize := fieldOr body "fontSize" (.str "16px"),
    radius := fieldOr body "radius" (.str "10px"),
    padding := fieldOr body "padding" (.str "24px"),
    containerMargin := fieldOr body "containerMargin" (.str "40px"),
    gradientPadding := fieldOr body "gradientPadding" (.str "60px"),
    gradientOpacity := fieldOr body "gradientOpacity" (.num "1"),
    shadow := fieldOr body "shadow" (.bool true),
    shadowIntensity := fieldOr body "shadowIntensity" (.str "light"),
    showLineNumbers := fieldOr body "showLineNumbers" (.bool true),
    lineNumbersStyle := fieldOr body "lineNumbersStyle" (.str "minimal"),
    showWindowControls := fieldOr body "showWindowControls" (.bool true),
    showTab := fieldOr body "showTab" (.bool true),
    fileName := fieldOr body "fileName" (.str ""),
    title := fieldOr body "title" (.str ""),
    watermark := fieldOr body "watermark" (.str "@akshat_arora7"),
    background := fieldOr body "background" (.str "vivid"),
    gradientAngle := fieldOr body "gradientAngle" (.str "135deg"),
    squareImage := fieldOr body "squareImage" (.bool true) }

/-! ### Theme, background and file-name resolution (index.js 256, 303-356) -/

/-- The value of the constant `themeColors`: a registered palette, or a member that the
object `themes` inherits from `Object.prototype`. -/
inductive ThemeColors where
  | palette (t : ThemeSpec)
  | inherited (name : String)
deriving DecidableEq, Repr

/-- The interpolation `themeColors.<role>`: an inherited member has none of the 8 roles, so
the read is `undefined`. -/
def ThemeColors.role (c : ThemeColors) (r : ThemeSpec → String) : String :=
  match c with
  | .palette t => r t
  | .inherited _ => "undefined"

/-- The constant `themeColors = themes[theme] || themes.light` (index.js 256). -/
def themeColors (theme : JVal) : Except JsError ThemeColors := do
  let key ← theme.toStr
  match getProp themes key with
  | .own t => pure (.palette t)
  | .inherited n => pure (.inherited n)
  | .undefined => pure (.palette theme_light)

/-- The variable `backgroundStyle` after index.js 304-319. -/
def backgroundStyle (background gradientAngle : JVal) : Except JsError StyleValue :=
  if background.strictEqStr "transparent" then pure (.text "transparent")
  else do
    let key ← background.toStr
    match getProp gradients key with
    | .own g => pure (.text g)
    | .inherited n => pure (.inherited n)
    | .undefined =>
      match background with
      | .arr stops =>
        if stops.length ≥ 2 then do
          let angle ← gradientAngle.toStr
          let joined ← JVal.joinWith ", " stops
          pure (.text ("linear-gradient(" ++ angle ++ ", " ++ joined ++ ")"))
        else pure (.json background)
      | _ => pure (.json background)

/-- Lower-casing of one code point: ASCII capitals, and the Kelvin sign, whose lower case is
`k`.  No other code point lower-cases to ASCII text, so leaving the rest unchanged gives the
same result for every lookup against the ASCII-keyed tables below. -/
def lowerChar (c : Char) : Char :=
  if c.toNat = 8490 then 'k' else c.toLower

/-- The call `s.toLowerCase()`, exact on every string whose lower case is a table key. -/
def toLowerCase (s : String) : String :=
  ⟨s.data.map lowerChar⟩

/-- The receiver of `lang.toLowerCase()`: only a string has that method. -/
def langLower (lang : JVal) : Except JsError String :=
  match lang with
  | .str s => pure (toLowerCase s)
  | .null => throw ⟨"Cannot read properties of null (reading \x27toLowerCase\x27)"⟩
  | _ => throw ⟨"lang.toLowerCase is not a function"⟩

/-- The function `getExtensionForLanguage` (index.js 325-343). -/
def getExtensionForLanguage (lang : JVal) : Except JsError StyleValue := do
  let key ← langLower lang
  match getProp extensions key with
  | .own e => pure (.text e)
  | .inherited n => pure (.inherited n)
  | .undefined => pure (.text "txt")

/-- The function `getLanguageIcon` (index.js 346-356). -/
def getLanguageIcon (lang : JVal) : Except JsError StyleValue := do
  let key ← langLower lang
  match getProp icons key with
  | .own i => pure (.text i)
  | .inherited n => pure (.inherited n)
  | .undefined => pure (.text icon_generic)

/-- The constant `displayFileName` (index.js 322): `fileName || title || <default>`. -/
def displayFileName (p : Params) : Except JsError StyleValue :=
  if p.fileName.truthy then pure (.json p.fileName)
  else if p.title.truthy then pure (.json p.title)
  else do
    let base ← if p.language.strictEqStr "javascript" then pure "script" else p.language.toStr
    let ext ← getExtensionForLanguage p.language
    let ext ← ext.toStr
    pure (.text (base ++ "." ++ ext))

/-! ### The composed document (index.js 358-429) -/

/-- The substitution for the container shadow (index.js 367). -/
def boxShadow (p : Params) : Except JsError String :=
  if p.shadow.truthy then do
    let key ← p.shadowIntensity.toStr
    let preset := match getProp shadowStyle key with
      | .own s => s
      | .inherited n => inheritedToStr n
      | .undefined => shadowStyle_light
    pure ("box-shadow: " ++ preset ++ ";")
  else pure ""

/-- The substitution for the file tab (index.js 415). -/
def tabMarkup (p : Params) (displayFileName : StyleValue) : Except JsError String :=
  if p.showTab.truthy then do
    let icon ← getLanguageIcon p.language
    let icon ← icon.toStr
    let name ← displayFileName.toStr
    pure ("<div class=\"tab\"><div class=\"tab-icon\">" ++ icon
      ++ "</div><span class=\"tab-name\">" ++ name ++ "</span></div>")
  else pure ""

/-- The substitution for the window title (index.js 416). -/
def windowTitle (p : Params) : Except JsError String :=
  if p.title.truthy then do
    let t ← p.title.toStr
    pure ("<div class=\"window-title\">" ++ t ++ "</div>")
  else pure ""

/-- The substitution for the line-number column (index.js 419). -/
def lineNumbersColumn (showLineNumbers : JVal) (lineNumbers : String) : String :=
  if showLineNumbers.truthy then
    "<pre class=\"line-numbers\"><code>" ++ lineNumbers ++ "</code></pre>"
  else ""

/-- The substitution for the watermark (index.js 425). -/
def watermarkMarkup (p : Params) : Except JsError String :=
  if p.watermark.truthy then do
    let t ← p.watermark.toStr
    pure ("<div class=\"watermark\">" ++ t ++ "</div>")
  else pure ""

/-- The template literal `html` (index.js 358-429): every substitution is evaluated and
converted by ToString in source order, so the first failing one is the error thrown. -/
def html (p : Params) (themeColors : ThemeColors) (backgroundStyle displayFileName : StyleValue)
    (lineNumbers highlighted : String) : Except JsError String := do
  let e1 ← backgroundStyle.toStr
  let e3 ← (if p.squareImage.truthy then pure "50px" else p.gradientPadding.toStr)
  let e5 ← p.containerMargin.toStr
  let e7 ← p.radius.toStr
  let e9 ← pure (if p.squareImage.truthy then "auto" else "100%")
  let e11 ← pure (if p.squareImage.truthy then "1/1" else "auto")
  let e13 ← p.gradientOpacity.toStr
  let e15 ← p.radius.toStr
  let e17 ← boxShadow p
  let e19 ← pure (themeColors.role ThemeSpec.bg)
  let e21 ← pure (themeColors.role ThemeSpec.windowBg)
  let e23 ← pure (if p.showTab.truthy || p.showWindowControls.truthy then "42px" else "0")
  let e25 ← p.radius.toStr
  let e27 ← p.radius.toStr
  let e29 ← pure (if p.showWindowControls.truthy then "flex" else "none")
  let e31 ← pure (if p.showTab.truthy then "flex" else "none")
  let e33 ← pure (themeColors.role ThemeSpec.bg)
  let e35 ← pure (themeColors.role ThemeSpec.bg)
  let e37 ← pure (themeColors.role ThemeSpec.fg)
  let e39 ← pure (themeColors.role ThemeSpec.comment)
  let e41 ← pure (themeColors.role ThemeSpec.bg)
  let e43 ← p.padding.toStr
  let e45 ← p.fontSize.toStr
  let e47 ← p.padding.toStr
  let e49 ← pure (themeColors.role ThemeSpec.comment)
  let e51 ← p.padding.toStr
  let e53 ← pure (themeColors.role ThemeSpec.fg)
  let e55 ← pure (themeColors.role ThemeSpec.highlight)
  let e57 ← pure (themeColors.role ThemeSpec.string)
  let e59 ← pure (themeColors.role ThemeSpec.number)
  let e61 ← pure (themeColors.role ThemeSpec.highlight)
  let e63 ← pure (themeColors.role ThemeSpec.comment)
  let e65 ← pure (themeColors.role ThemeSpec.property)
  let e67 ← pure (themeColors.role ThemeSpec.comment)
  let e69 ← tabMarkup p displayFileName
  let e71 ← windowTitle p
  let e73 ← pure (lineNumbersColumn p.showLineNumbers lineNumbers)
  let e75 ← pure highlighted
  let e77 ← watermarkMarkup p
  pure (String.join [
    "\n    <html><head>\n        <link href=\"https://fonts.googleapis.com/css2?family=Fira+Code:wght@400;500&family=Poppins:wght@400,500;600&display=swap\" rel=\"stylesheet\">\n        <style>\n          html, body \x7b margin: 0; padding: 0; width: 100%; height: 100%; box-sizing: border-box; \x7d\n          body \x7b display: flex; justify-content: center; align-items: center; background: ",
    e1,
    "; font-family: 'Poppins', sans-serif; padding: ",
    e3,
    "; \x7d\n          .gradient-wrapper \x7b padding: ",
    e5,
    "; border-radius: ",
    e7,
    "; display: flex; justify-content: center; align-items: center; width: ",
    e9,
    "; aspect-ratio: ",
    e11,
    "; opacity: ",
    e13,
    "; \x7d\n          \n          /* --- FIX: Added position: relative --- */\n          .container \x7b position: relative; border-radius: ",
    e15,
    "; ",
    e17,
    " overflow: hidden; max-width: 850px; width: 100%; background: ",
    e19,
    "; \x7d\n          \n          .header \x7b display: flex; align-items: center; background: ",
    e21,
    "; height: ",
    e23,
    "; padding: 0; border-radius: ",
    e25,
    " ",
    e27,
    " 0 0; border-bottom: 1px solid rgba(255,255,255,0.05); \x7d\n          .window-controls-container \x7b display: ",
    e29,
    "; align-items: center; padding: 0 16px; \x7d\n          .window-controls \x7b display: flex; gap: 8px; \x7d\n          .window-control \x7b width: 12px; height: 12px; border-radius: 50%; \x7d\n          .window-control.close \x7b background-color: #ff5f56; \x7d\n          .window-control.minimize \x7b background-color: #ffbd2e; \x7d\n          .window-control.maximize \x7b background-color: #27c93f; \x7d\n          .tabs \x7b display: flex; flex-grow: 1; height: 100%; padding-left: 10px; \x7d\n          .tab \x7b display: ",
    e31,
    "; align-items: center; padding: 0 16px; height: 100%; background: ",
    e33,
    "; border-top-left-radius: 5px; border-top-right-radius: 5px; position: relative; \x7d\n          .tab::after \x7b content: ''; position: absolute; bottom: -1px; left: 0; right: 0; height: 1px; background: ",
    e35,
    "; z-index: 2; \x7d\n          .tab-icon \x7b margin-right: 8px; \x7d\n          .tab-name \x7b font-size: 13px; font-weight: 500; color: ",
    e37,
    "; white-space: nowrap; \x7d\n          .window-title \x7b margin-left: auto; font-size: 13px; color: ",
    e39,
    "; padding: 0 16px; \x7d\n\n          .code-container \x7b display: flex; background: ",
    e41,
    "; padding: ",
    e43,
    " 0; \x7d\n          .line-numbers, .code-content pre code \x7b font-family: 'Fira Code', monospace; font-size: ",
    e45,
    "; line-height: 1.8; white-space: pre; tab-size: 2; -moz-tab-size: 2; \x7d\n          .line-numbers \x7b text-align: right; user-select: none; padding-left: ",
    e47,
    "; padding-right: 12px; color: ",
    e49,
    "; opacity: 0.7; border-right: 1px solid rgba(255, 255, 255, 0.1); \x7d\n          .code-content \x7b overflow-x: auto; flex-grow: 1; padding-left: 16px; padding-right: ",
    e51,
    "; \x7d\n          pre \x7b margin: 0; padding: 0; \x7d\n          .code-content pre code \x7b color: ",
    e53,
    "; background: transparent; padding: 0; display: block; \x7d\n          \n          .hljs-keyword, .hljs-selector-tag, .hljs-built_in \x7b color: ",
    e55,
    "; \x7d\n          .hljs-string, .hljs-attr, .hljs-value \x7b color: ",
    e57,
    "; \x7d\n          .hljs-number, .hljs-literal \x7b color: ",
    e59,
    "; \x7d\n          .hljs-title.function_, .hljs-title.class_ \x7b color: ",
    e61,
    "; font-weight: 600; \x7d\n          .hljs-comment, .hljs-meta \x7b color: ",
    e63,
    "; font-style: italic; \x7d\n          .hljs-property \x7b color: ",
    e65,
    "; \x7d\n\n          /* --- FIX: Watermark CSS Added --- */\n          .watermark \x7b\n            font-family: 'Poppins', sans-serif;\n            position: absolute;\n            bottom: 12px; \n            right: 15px;\n            font-size: 12px;\n            font-weight: 500;\n            color: ",
    e67,
    "; /* Dynamic color */\n            opacity: 0.8;\n            z-index: 10;\n          \x7d\n        </style>\n      </head><body>\n        <div class=\"gradient-wrapper\">\n          <div class=\"container\">\n            <div class=\"header\">\n              <div class=\"window-controls-container\"><div class=\"window-controls\"><div class=\"window-control close\"></div><div class=\"window-control minimize\"></div><div class=\"window-control maximize\"></div></div></div>\n              <div class=\"tabs\">",
    e69,
    "</div>\n              ",
    e71,
    "\n            </div>\n            <div class=\"code-container\">\n              ",
    e73,
    "\n              <div class=\"code-content\">\n                <pre><code class=\"hljs\">",
    e75,
    "</code></pre>\n              </div>\n            </div>\n            <!-- FIX: Watermark moved inside .container -->\n            ",
    e77,
    "\n          </div>\n        </div>\n      </body></html>\n    "
  ])

/-! ### External collaborators -/

/-- The libraries the handler calls and the values it reads from `chrome-aws-lambda`. -/
structure Env where
  /-- The call `hljs.highlight(code, { language, ignoreIllegals: true }).value`. -/
  highlight : String → JVal → Except JsError String
  /-- The hex MD5 digest of a string. -/
  md5 : String → String
  /-- The call `JSON.stringify(req.body)`. -/
  stringify : Body → String
  /-- The value `chromium.args`, `none` when undefined. -/
  chromiumArgs : Option (List String)
  /-- The value `chromium.defaultViewport` as width and height, `none` when undefined. -/
  chromiumDefaultViewport : Option (Nat × Nat)

/-- What the try block of the handler computes before a page is opened (index.js 256-429). -/
structure Composed where
  themeColors : ThemeColors
  formattedCode : String
  highlighted : String
  lineNumbers : String
  backgroundStyle : StyleValue
  displayFileName : StyleValue
  html : String

/-- The statements of index.js 256-429 in source order; a throw from any of them leaves the
outer try block. -/
def compose (env : Env) (p : Params) (code : JVal) : Except JsError Composed := do
  let tc ← themeColors p.theme
  let fc ← match code with
    | .str c => pure (formattedCode c p.language)
    | _ => throw ⟨"code.replace is not a function"⟩
  let hl ← env.highlight fc p.language
  let ln := lineNumbers p.showLineNumbers fc
  let bg ← backgroundStyle p.background p.gradientAngle
  let dn ← displayFileName p
  let doc ← html p tc bg dn ln hl
  pure { themeColors := tc, formattedCode := fc, highlighted := hl, lineNumbers := ln,
         backgroundStyle := bg, displayFileName := dn, html := doc }

/-! ### The response cache (index.js 12) -/

/-- An image buffer. -/
abbrev Bytes := List Nat

/-- One entry of the `node-cache` store: the value and the time (ms) after which it is stale. -/
structure CacheEntry where
  key : String
  value : Bytes
  expires : Nat
deriving DecidableEq, Repr

/-- The configured `stdTTL` of 600 seconds, in milliseconds. -/
def cacheTtl : Nat := 600 * 1000

/-- The call `cache.get(key)` at time `now`: an entry is returned until its expiry time has
passed; a stale or missing entry reads as `undefined`. -/
def cacheGet (cache : List CacheEntry) (key : String) (now : Nat) : Option Bytes :=
  match cache.find? (fun e => e.key == key) with
  | some e => if e.expires < now then none else some e.value
  | none => none

/-- The call `cache.set(key, value)` at time `now`: the entry replaces any earlier one. -/
def cacheSet (cache : List CacheEntry) (key : String) (value : Bytes) (now : Nat) :
    List CacheEntry :=
  { key := key, value := value, expires := now + cacheTtl } :: cache.filter (fun e => e.key != key)

/-! ### The browser session singleton (index.js 167-218) -/

/-- A browser process handle returned by `puppeteer.launch`. -/
abbrev Handle := Nat

/-- A page opened in the browser. -/
abbrev Page := Nat

/-- The object `launchOptions` (index.js 183-197). -/
structure LaunchOptions where
  args : List String
  defaultViewport : Nat × Nat
  executablePath : Option String
  headless : Bool
  ignoreHTTPSErrors : Bool
deriving DecidableEq, Repr

/-- The object `launchOptions` built from the resolved executable path. -/
def launchOptions (env : Env) (executablePath : Option String) : LaunchOptions :=
  { args := env.chromiumArgs.getD
      ["--no-sandbox", "--disable-setuid-sandbox", "--disable-dev-shm-usage",
       "--disable-accelerated-2d-canvas", "--no-first-run", "--no-zygote", "--disable-gpu"],
    defaultViewport := env.chromiumDefaultViewport.getD (1400, 1400),
    executablePath := executablePath,
    headless := true,
    ignoreHTTPSErrors := true }

/-- An observable step against the automation engine. -/
inductive Event where
  /-- The function `getBrowser` was called. -/
  | acquire
  /-- The try block of `getBrowser` was entered: a launch is in flight. -/
  | launchStarted
  /-- The call `puppeteer.launch(launchOptions)`. -/
  | puppeteerLaunch (options : LaunchOptions)
  /-- The call `browser.newPage()` returned this page. -/
  | newPage (page : Page)
  /-- The call `page.setContent(html, ...)` on this page. -/
  | setContent (page : Page) (html : String)
  /-- The call `page.close()` closed this page. -/
  | closePage (page : Page)
deriving DecidableEq, Repr

/-- The mutable state of the process: the module variables `browser` and `browserError`, the
handles that carry the `disconnected` listener of index.js 207, the cache, the pages open in
the browser, and the log of steps taken so far. -/
structure World where
  browser : Option Handle
  browserError : Option JsError
  listeners : List Handle
  cache : List CacheEntry
  openPages : List Page
  log : List Event
deriving DecidableEq, Repr

/-- The state at process start. -/
def World.initial : World :=
  { browser := none, browserError := none, listeners := [], cache := [], openPages := [],
    log := [] }

/-- The session state `Unset`: no handle, no remembered error. -/
def World.isUnset (w : World) : Prop := w.browser = none ∧ w.browserError = none

/-- The session state `Ready` holding `h`. -/
def World.isReady (w : World) (h : Handle) : Prop := w.browser = some h

/-- The session state `Error` remembering `e`. -/
def World.isError (w : World) (e : JsError) : Prop := w.browser = none ∧ w.browserError = some e

/-- The number of launches started so far. -/
def World.launches (w : World) : Nat := w.log.count Event.launchStarted

/-- The number of calls of `puppeteer.launch` so far. -/
def World.launchCalls (w : World) : Nat :=
  w.log.countP fun e => match e with
    | .puppeteerLaunch _ => true
    | _ => false

/-- The number of calls of `getBrowser` so far. -/
def World.acquisitions (w : World) : Nat := w.log.count Event.acquire

/-- What the engine answers during one launch: the awaited `chromium.executablePath` and the
awaited `puppeteer.launch`. -/
structure LaunchOutcome where
  executablePath : Except JsError (Option String)
  launch : Except JsError Handle

/-- The result of the whole launch: the handle, or the first failure. -/
def LaunchOutcome.result (o : LaunchOutcome) : Except JsError Handle :=
  match o.executablePath with
  | .error e => .error e
  | .ok _ => o.launch

/-- The function `getBrowser` (index.js 172-218), in the sequential model: the returned
handle or the thrown error, and the state afterwards. -/
def getBrowser (env : Env) (o : LaunchOutcome) (w : World) : Except JsError Handle × World :=
  let w := { w with log := w.log ++ [Event.acquire] }
  match w.browser with
  | some h => (.ok h, w)
  | none =>
    match w.browserError with
    | some e => (.error e, w)
    | none =>
      let w := { w with log := w.log ++ [Event.launchStarted] }
      match o.executablePath with
      | .error e => (.error e, { w with browserError := some e })
      | .ok path =>
        let w := { w with log := w.log ++ [Event.puppeteerLaunch (launchOptions env path)] }
        match o.launch with
        | .error e => (.error e, { w with browserError := some e })
        | .ok h => (.ok h, { w with browser := some h, listeners := h :: w.listeners })

/-- Sequential calls of `getBrowser`, one launch outcome each: the results in order and the
final state. -/
def acquireAll (env : Env) : List LaunchOutcome → World → List (Except JsError Handle) × World
  | [], w => ([], w)
  | o :: os, w =>
      ((getBrowser env o w).1 :: (acquireAll env os (getBrowser env o w).2).1,
       (acquireAll env os (getBrowser env o w).2).2)

/-- The invariant of the session variables: a held handle carries the `disconnected`
listener and no error is remembered next to it. -/
def World.wellFormed (w : World) : Prop :=
  ∀ h, w.browser = some h → h ∈ w.listeners ∧ w.browserError = none

/-- The listener of index.js 207-210 firing for the handle `h`. -/
def disconnected (h : Handle) (w : World) : World :=
  if h ∈ w.listeners then { w with browser := none } else w

/-! ### The handler of POST /image (index.js 220-466) -/

/-- The response sent by the handler. -/
inductive Response where
  /-- The call `res.type('png').send(bytes)`: status 200, an image body. -/
  | png (body : Bytes)
  /-- The call `res.status(status).json(body)`. -/
  | json (status : Nat) (body : List (String × String))
deriving DecidableEq, Repr

/-- What the engine answers to the page operations of one request, and the time the render
takes. -/
structure Outcomes where
  session : LaunchOutcome
  newPage : Except JsError Page
  setViewport : Except JsError Unit
  setContent : Except JsError Unit
  /-- The call `page.$('.gradient-wrapper')`: `false` when it resolves to null. -/
  query : Except JsError Bool
  screenshot : Except JsError Bytes
  close : Except JsError Unit
  elapsed : Nat

/-- The response of the inner catch block (index.js 455-461). -/
def browserFailure (e : JsError) : Response :=
  .json 500 [("error", "Image generation failed"), ("message", "Browser error: " ++ e.message)]

/-- The inner try block (index.js 431-461) on a cache miss. -/
def renderPage (env : Env) (o : Outcomes) (now : Nat) (key : String) (html : String)
    (w : World) : Response × World :=
  match getBrowser env o.session w with
  | (.error e, w) => (browserFailure e, w)
  | (.ok _, w) =>
    match o.newPage with
    | .error e => (browserFailure e, w)
    | .ok page =>
      let w := { w with openPages := page :: w.openPages, log := w.log ++ [Event.newPage page] }
      match o.setViewport with
      | .error e => (browserFailure e, w)
      | .ok _ =>
        let w := { w with log := w.log ++ [Event.setContent page html] }
        match o.setContent with
        | .error e => (browserFailure e, w)
        | .ok _ =>
          match o.query with
          | .error e => (browserFailure e, w)
          | .ok false =>
            (browserFailure ⟨"Cannot read properties of null (reading \x27screenshot\x27)"⟩, w)
          | .ok true =>
            match o.screenshot with
            | .error e => (browserFailure e, w)
            | .ok image =>
              match o.close with
              | .error e => (browserFailure e, w)
              | .ok _ =>
                let w := { w with openPages := w.openPages.erase page,
                                  log := w.log ++ [Event.closePage page] }
                (.png image, { w with cache := cacheSet w.cache key image (now + o.elapsed) })

/-- The constant `key` (index.js 248-250): the digest of the serialized body. -/
def cacheKey (env : Env) (body : Body) : String :=
  env.md5 (env.stringify body)

/-- The handler of `POST /image` for a request arriving at time `now` (ms). -/
def postImage (env : Env) (o : Outcomes) (now : Nat) (body : Body) (w : World) :
    Response × World :=
  let p := destructure body
  match p.code with
  | none => (.json 400 [("error", "Code required")], w)
  | some code =>
    if !code.truthy then (.json 400 [("error", "Code required")], w)
    else
      let key := cacheKey env body
      match cacheGet w.cache key now with
      | some cached => (.png cached, w)
      | none =>
        match compose env p code with
        | .error _ => (.json 500 [("error", "Image generation failed")], w)
        | .ok doc => renderPage env o now key doc.html w


/-- The status code of a response. -/
def Response.status : Response → Nat
  | .png _ => 200
  | .json status _ => status

/-- A field of the JSON body of a response; an image response has none. -/
def Response.field : Response → String → Option String
  | .png _, _ => none
  | .json _ body, name => body.lookup name

/-- What the statements of the inner try block (index.js 433-451) yield, in source order:
the image, or the error of the first step that fails. -/
def renderResult (env : Env) (o : Outcomes) (w : World) : Except JsError Bytes := do
  let _ ← (getBrowser env o.session w).1
  let _ ← o.newPage
  o.setViewport
  o.setContent
  let found ← o.query
  if !found then throw ⟨"Cannot read properties of null (reading \x27screenshot\x27)"⟩
  let image ← o.screenshot
  o.close
  pure image

/-! ### chromeLauncher.js -/

/-- What `chromeLauncher.js` reads from the process environment and from
`chrome-aws-lambda`; an unset variable or an undefined value is `none`. -/
structure LauncherEnv where
  vercel : Option String
  awsLambdaFunctionName : Option String
  chromeExecutablePath : Option String
  chromiumArgs : Option (List String)
  chromiumHeadless : Option Bool

/-- The coercion `!!process.env.NAME`: an unset or empty variable is falsy. -/
def envTruthy : Option String → Bool
  | some v => v != ""
  | none => false

/-- The helper `isVercelServerless` (chromeLauncher.js 5). -/
def isVercelServerless (env : LauncherEnv) : Bool :=
  envTruthy env.vercel || envTruthy env.awsLambdaFunctionName

/-- The `headless` option: `true`, `false` or the string `new`. -/
inductive Headless where
  | yes
  | no
  | new
deriving DecidableEq, Repr

/-- The options object passed to `puppeteer.launch` in `chromeLauncher.js`; a property that
is undefined or left out is `none`. -/
structure PuppeteerOptions where
  args : Option (List String)
  executablePath : Option String
  headless : Headless
  ignoreHTTPSErrors : Option Bool
deriving DecidableEq, Repr

/-- The flags appended in the serverless context (chromeLauncher.js 27-33). -/
def serverlessFlags : List String :=
  ["--disable-dev-shm-usage", "--no-sandbox", "--disable-setuid-sandbox", "--disable-gpu",
   "--no-first-run", "--single-process", "--disable-extensions"]

/-- The object `options` as first built (chromeLauncher.js 15-20). -/
def primaryOptions (env : LauncherEnv) (executablePath : Option String) : PuppeteerOptions :=
  { args := env.chromiumArgs,
    executablePath := some (if envTruthy executablePath then executablePath.getD ""
      else if envTruthy env.chromeExecutablePath then env.chromeExecutablePath.getD ""
      else "/usr/bin/chromium-browser"),
    headless := if env.chromiumHeadless = some false then .no else .yes,
    ignoreHTTPSErrors := some true }

/-- The options of the local fallback launch (chromeLauncher.js 48-51). -/
def fallbackOptions : PuppeteerOptions :=
  { args := some ["--no-sandbox", "--disable-setuid-sandbox"],
    executablePath := none,
    headless := .new,
    ignoreHTTPSErrors := none }

/-- What the engine answers during one call of `getChromiumBrowser`: the awaited
`chromium.executablePath`, the primary launch and the fallback launch. -/
structure LauncherOutcome where
  executablePath : Except JsError (Option String)
  primary : Except JsError Handle
  fallback : Except JsError Handle

/-- The try block of `getChromiumBrowser` (chromeLauncher.js 11-40): its result and the
options of the launches it made.  Spreading an undefined `chromium.args` throws before any
launch. -/
def primaryAttempt (env : LauncherEnv) (o : LauncherOutcome) :
    Except JsError Handle × List PuppeteerOptions :=
  match o.executablePath with
  | .error e => (.error e, [])
  | .ok path =>
    let options := primaryOptions env path
    if isVercelServerless env then
      match env.chromiumArgs with
      | none => (.error ⟨"chromium.args is not iterable"⟩, [])
      | some base =>
        let options := { options with args := some (base ++ serverlessFlags) }
        (o.primary, [options])
    else (o.primary, [options])

/-- The function `getChromiumBrowser` (chromeLauncher.js 8-60): the returned handle or the
thrown error, and the options of every `puppeteer.launch` call in order. -/
def getChromiumBrowser (env : LauncherEnv) (o : LauncherOutcome) :
    Except JsError Handle × List PuppeteerOptions :=
  match primaryAttempt env o with
  | (.ok browser, calls) => (.ok browser, calls)
  | (.error error, calls) =>
    if !isVercelServerless env then
      match o.fallback with
      | .ok browser => (.ok browser, calls ++ [fallbackOptions])
      | .error _ => (.error error, calls ++ [fallbackOptions])
    else (.error error, calls)

/-! ### Sample collaborators, used to instantiate the theorems -/

/-- A sample environment: the highlighter returns the code unchanged, the digest is the
identity and a body serializes to its keys. -/
def sampleEnv : Env :=
  { highlight := fun code _ => .ok code,
    md5 := fun s => s,
    stringify := fun body => ",".intercalate (body.map Prod.fst),
    chromiumArgs := none,
    chromiumDefaultViewport := none }

/-- A sample launch that resolves no executable path and yields the handle `h`. -/
def launchOk (h : Handle) : LaunchOutcome :=
  { executablePath := .ok none, launch := .ok h }

/-- A sample launch that fails with the error `e`. -/
def launchFails (e : JsError) : LaunchOutcome :=
  { executablePath := .ok none, launch := .error e }

/-- Sample outcomes of a request whose render succeeds with the bytes `image`. -/
def renderOk (h : Handle) (page : Page) (image : Bytes) : Outcomes :=
  { session := launchOk h, newPage := .ok page, setViewport := .ok (), setContent := .ok (),
    query := .ok true, screenshot := .ok image, close := .ok (), elapsed := 250 }

/-- A sample `Ready` state: the handle `h` is held and carries the listener. -/
def readyWorld (h : Handle) : World :=
  { browser := some h, browserError := none, listeners := [h], cache := [], openPages := [],
    log := [Event.acquire, Event.launchStarted,
            Event.puppeteerLaunch (launchOptions sampleEnv none)] }

/-- A sample `Error` state remembering `e`. -/
def errorWorld (e : JsError) : World :=
  { browser := none, browserError := some e, listeners := [], cache := [], openPages := [],
    log := [Event.acquire, Event.launchStarted,
            Event.puppeteerLaunch (launchOptions sampleEnv none)] }

/-- A sample environment whose highlighter knows only `javascript`. -/
def strictEnv : Env :=
  { highlight := fun code language =>
      if language.strictEqStr "javascript" then .ok code
      else .error ⟨"Unknown language"⟩,
    md5 := fun s => s,
    stringify := fun body => ",".intercalate (body.map Prod.fst),
    chromiumArgs := none,
    chromiumDefaultViewport := none }

/-- Sample outcomes of a request whose page opens and then fails at `setContent`. -/
def setContentFails (h : Handle) (page : Page) (e : JsError) : Outcomes :=
  { session := launchOk h, newPage := .ok page, setViewport := .ok (), setContent := .error e,
    query := .ok true, screenshot := .ok [], close := .ok (), elapsed := 30000 }

/-- A sample serverless environment. -/
def serverlessEnv : LauncherEnv :=
  { vercel := some "1", awsLambdaFunctionName := none, chromeExecutablePath := none,
    chromiumArgs := some ["--hide-scrollbars", "--mute-audio"], chromiumHeadless := some true }

/-- A sample local environment. -/
def localEnv : LauncherEnv :=
  { vercel := none, awsLambdaFunctionName := none, chromeExecutablePath := none,
    chromiumArgs := some ["--hide-scrollbars", "--mute-audio"], chromiumHeadless := some false }

/-! ### Reference re-indentation, following the specification's wording -/

/-- The specification's CRLF normalization, stated on positions: a carriage return that is
immediately followed by a newline is dropped, every other character is kept. -/
def specNormalize (s : List Char) : List Char :=
  (s.zip (s.tail.map some ++ [none])).filterMap fun cn =>
    if cn.1 = '\r' ∧ cn.2 = some '\n' then none else some cn.1

/-- The specification's trimmed text of a line: leading, then trailing white space removed. -/
def specTrim (line : List Char) : List Char :=
  (line.dropWhile isJsWhiteSpace).rdropWhile isJsWhiteSpace

/-- The specification's walk over the lines with a nesting counter `d`. -/
def specWalk : Nat → List (List Char) → List (List Char)
  | _, [] => []
  | d, line :: rest =>
      let t := specTrim line
      let d₁ := if t.contains '}' && !t.contains '{' then d - 1 else d
      let out := if t = [] then [] else List.replicate (2 * d₁) ' ' ++ t
      let d₂ := if t.contains '{' && !t.contains '}' then d₁ + 1 else d₁
      out :: specWalk d₂ rest

/-- The specification's default file name, reading `javascript` and the registered
extensions as exact language identifiers. -/
def specDefaultName (language : String) : String :=
  (if language = "javascript" then "script" else language) ++ "."
    ++ (extensions.lookup language).getD "txt"

/-- The specification's default file name, reading language identifiers without regard to
letter case. -/
def specDefaultNameCaseless (language : String) : String :=
  (if toLowerCase language = "javascript" then "script" else language) ++ "."
    ++ (extensions.lookup (toLowerCase language)).getD "txt"

/-- The specification's formatted code for the two brace-aware languages: normalize, split on
newlines, walk, join with newlines. -/
def specFormat (code : String) : String :=
  ⟨['\n'].intercalate (specWalk 0 ((specNormalize code.data).splitOn '\n'))⟩

/-! ## Theorems -/

/-! ### Lines, joins and the re-indentation -/

theorem splitNewline_ne_nil (s : List Char) : splitNewline s ≠ [] := by
  induction s with
  | nil => simp [splitNewline]
  | cons c rest ih =>
    unfold splitNewline
    split
    · simp
    · split <;> simp

theorem splitNewline_no_newline (s : List Char) :
    ∀ l ∈ splitNewline s, '\n' ∉ l := by
  induction s with
  | nil => simp [splitNewline]
  | cons c rest ih =>
    unfold splitNewline
    split
    · intro l hl
      rcases List.mem_cons.mp hl with h | h
      · subst h; simp
      · exact ih l h
    · rename_i hc
      split
      · intro l hl
        simp only [List.mem_singleton] at hl
        subst hl
        simpa using fun h => hc h.symm
      · rename_i l₀ ls heq
        intro l hl
        rcases List.mem_cons.mp hl with h | h
        · subst h
          have h₀ := ih l₀ (by rw [heq]; exact List.mem_cons_self _ _)
          intro hmem
          rcases List.mem_cons.mp hmem with h₁ | h₁
          · exact hc h₁.symm
          · exact h₀ h₁
        · exact ih l (by rw [heq]; exact List.mem_cons_of_mem _ h)

theorem splitNewline_of_no_newline (l : List Char) (h : '\n' ∉ l) : splitNewline l = [l] := by
  induction l with
  | nil => rfl
  | cons c rest ih =>
    have hc : c ≠ '\n' := fun e => h (by simp [e])
    have hr : '\n' ∉ rest := fun e => h (List.mem_cons_of_mem _ e)
    simp [splitNewline, hc, ih hr]

theorem splitNewline_append_newline (l rest : List Char) (h : '\n' ∉ l) :
    splitNewline (l ++ '\n' :: rest) = l :: splitNewline rest := by
  induction l with
  | nil => simp [splitNewline]
  | cons c l ih =>
    have hc : c ≠ '\n' := fun e => h (by simp [e])
    have hr : '\n' ∉ l := fun e => h (List.mem_cons_of_mem _ e)
    simp [splitNewline, hc, ih hr]

theorem splitNewline_joinNewline (ls : List (List Char)) (hne : ls ≠ [])
    (h : ∀ l ∈ ls, '\n' ∉ l) : splitNewline (joinNewline ls) = ls := by
  induction ls with
  | nil => exact absurd rfl hne
  | cons l rest ih =>
    cases rest with
    | nil => simpa [joinNewline] using splitNewline_of_no_newline l (h l (by simp))
    | cons m rest =>
      have hl : '\n' ∉ l := h l (by simp)
      have ih2 := ih (by simp) (fun x hx => h x (List.mem_cons_of_mem _ hx))
      simp only [joinNewline]
      rw [splitNewline_append_newline l _ hl, ih2]

theorem jsTrim_subset (s : List Char) : ∀ c ∈ jsTrim s, c ∈ s := by
  intro c hc
  unfold jsTrim at hc
  rw [List.mem_reverse] at hc
  have h₁ := (List.dropWhile_sublist isJsWhiteSpace).subset hc
  rw [List.mem_reverse] at h₁
  exact (List.dropWhile_sublist isJsWhiteSpace).subset h₁

theorem repeatTwoSpaces_eq (d : Nat) : repeatTwoSpaces (d : Int) = List.replicate (2 * d) ' ' := by
  unfold repeatTwoSpaces
  simp only [Int.toNat_ofNat]
  induction d with
  | zero => rfl
  | succ n ih =>
    rw [List.replicate_succ, List.flatten_cons, ih, Nat.mul_succ]
    rfl

theorem mem_repeatTwoSpaces (n : Int) : ∀ c ∈ repeatTwoSpaces n, c = ' ' := by
  intro c hc
  unfold repeatTwoSpaces at hc
  rw [List.mem_flatten] at hc
  obtain ⟨l, hl, hcl⟩ := hc
  rw [List.eq_of_mem_replicate hl] at hcl
  simpa using hcl

theorem indentLine_no_newline (indent : Int) (line : List Char) (h : '\n' ∉ line) :
    '\n' ∉ (indentLine indent line).1 := by
  unfold indentLine
  simp only
  split
  · intro hmem
    rcases List.mem_append.mp hmem with h₁ | h₁
    · have := mem_repeatTwoSpaces _ _ h₁
      exact absurd this (by decide)
    · exact h (jsTrim_subset _ _ h₁)
  · simp

theorem indentLines_length (indent : Int) (ls : List (List Char)) :
    (indentLines indent ls).length = ls.length := by
  induction ls generalizing indent with
  | nil => rfl
  | cons l rest ih => simp [indentLines, ih]

theorem indentLines_no_newline (indent : Int) (ls : List (List Char))
    (h : ∀ l ∈ ls, '\n' ∉ l) : ∀ l ∈ indentLines indent ls, '\n' ∉ l := by
  induction ls generalizing indent with
  | nil => simp [indentLines]
  | cons l rest ih =>
    intro x hx
    simp only [indentLines, List.mem_cons] at hx
    rcases hx with hx | hx
    · subst hx
      exact indentLine_no_newline _ _ (h l (by simp))
    · exact ih _ (fun y hy => h y (List.mem_cons_of_mem _ hy)) x hx

theorem indentLine_eq_spec (d : Nat) (line : List Char) :
    indentLine (d : Int) line =
      (let t := jsTrim line
       let d₁ := if t.contains '}' && !t.contains '{' then d - 1 else d
       let out := if t = [] then [] else List.replicate (2 * d₁) ' ' ++ t
       let d₂ := if t.contains '{' && !t.contains '}' then d₁ + 1 else d₁
       (out, ((d₂ : Nat) : Int))) := by
  have hmax : max (0 : Int) ((d : Int) - 1) = ((d - 1 : Nat) : Int) := by omega
  unfold indentLine
  simp only
  cases ha : (jsTrim line).contains '}' <;> cases hb : (jsTrim line).contains '{' <;>
    by_cases ht : jsTrim line = [] <;> simp [ht, hmax, repeatTwoSpaces_eq]

theorem specTrim_eq_jsTrim (line : List Char) : specTrim line = jsTrim line := rfl

theorem indentLines_eq_specWalk (d : Nat) (ls : List (List Char)) :
    indentLines (d : Int) ls = specWalk d ls := by
  induction ls generalizing d with
  | nil => rfl
  | cons l rest ih =>
    simp only [indentLines, specWalk, indentLine_eq_spec, specTrim_eq_jsTrim]
    rw [ih]

theorem splitNewline_eq_splitOn (s : List Char) : splitNewline s = s.splitOn '\n' := by
  induction s with
  | nil => rfl
  | cons c rest ih =>
    unfold splitNewline
    rw [List.splitOn, List.splitOnP_cons, ← List.splitOn, ← ih]
    by_cases hc : c = '\n'
    · simp [hc]
    · simp only [hc, if_false, beq_iff_eq]
      cases hs : splitNewline rest with
      | nil => exact absurd hs (splitNewline_ne_nil rest)
      | cons l ls => rfl

theorem joinNewline_eq_intercalate (ls : List (List Char)) :
    joinNewline ls = ['\n'].intercalate ls := by
  induction ls with
  | nil => rfl
  | cons l rest ih =>
    cases rest with
    | nil => simp [joinNewline, List.intercalate]
    | cons m rest =>
      simp only [joinNewline, ih]
      simp [List.intercalate]

theorem specNormalize_cons (c : Char) (t : List Char) :
    specNormalize (c :: t)
      = (if c = '\r' ∧ t.head? = some '\n' then [] else [c]) ++ specNormalize t := by
  cases t with
  | nil => simp [specNormalize]
  | cons d r =>
    unfold specNormalize
    by_cases h : c = '\r' ∧ d = '\n'
    · simp [h]
    · simp [h]

theorem replaceCrLf_eq_specNormalize : ∀ (s : List Char), replaceCrLf s = specNormalize s
  | [] => rfl
  | [c] => by simp [replaceCrLf, specNormalize]
  | c :: d :: rest => by
    have ih₁ := replaceCrLf_eq_specNormalize (d :: rest)
    have ih₂ := replaceCrLf_eq_specNormalize rest
    rw [specNormalize_cons c (d :: rest)]
    unfold replaceCrLf
    by_cases h : c = '\r' ∧ d = '\n'
    · have hd : d ≠ '\r' := by rw [h.2]; decide
      rw [specNormalize_cons d rest]
      simp [h, ih₂]
    · simp only [h, if_false, ih₁, List.head?_cons, Option.some.injEq]
      rfl

theorem specNormalize_of_no_crlf (s : List Char) (h : ¬ ['\r', '\n'] <:+: s) :
    specNormalize s = s := by
  induction s with
  | nil => rfl
  | cons c t ih =>
    rw [specNormalize_cons]
    have ht : ¬ ['\r', '\n'] <:+: t := fun hi => h (hi.trans (List.suffix_cons c t).isInfix)
    rw [ih ht]
    have hc : ¬ (c = '\r' ∧ t.head? = some '\n') := by
      rintro ⟨h₁, h₂⟩
      apply h
      cases t with
      | nil => simp at h₂
      | cons d r =>
        simp only [List.head?_cons, Option.some.injEq] at h₂
        subst h₁
        subst h₂
        exact ⟨[], r, rfl⟩
    simp [hc]

theorem lineCount_formattedCode (code : String) (language : JVal) :
    lineCount (formattedCode code language) = (splitNewline (replaceCrLf code.data)).length := by
  unfold lineCount formattedCode
  simp only
  split
  · have hne : indentLines 0 (splitNewline (replaceCrLf code.data)) ≠ [] := by
      intro h
      have := congrArg List.length h
      rw [indentLines_length] at this
      exact splitNewline_ne_nil _ (List.length_eq_zero.mp this)
    rw [splitNewline_joinNewline _ hne
      (indentLines_no_newline _ _ (splitNewline_no_newline _)), indentLines_length]
  · rfl

/-! ### The response cache -/

theorem cacheGet_cacheSet (cache : List CacheEntry) (key : String) (value : Bytes)
    (now later : Nat) (h : later ≤ now + cacheTtl) :
    cacheGet (cacheSet cache key value now) key later = some value := by
  unfold cacheGet cacheSet
  simp only [List.find?_cons, beq_self_eq_true]
  simp [Nat.not_lt.mpr h]

theorem renderPage_png (env : Env) (o : Outcomes) (now : Nat) (key doc : String) (w w₁ : World)
    (b : Bytes) (h : renderPage env o now key doc w = (.png b, w₁)) :
    ∃ c, w₁.cache = cacheSet c key b (now + o.elapsed) := by
  unfold renderPage at h
  simp only [browserFailure] at h
  repeat' split at h
  all_goals simp only [Prod.mk.injEq, Response.png.injEq, reduceCtorEq, false_and] at h
  obtain ⟨hb, hw⟩ := h
  subst hb
  subst hw
  exact ⟨_, rfl⟩

theorem postImage_miss (env : Env) (o : Outcomes) (now : Nat) (body : Body) (w : World)
    (c : JVal) (hc : body.lookup "code" = some c) (ht : c.truthy = true)
    (hmiss : cacheGet w.cache (cacheKey env body) now = none) :
    postImage env o now body w =
      match compose env (destructure body) c with
      | .error _ => (.json 500 [("error", "Image generation failed")], w)
      | .ok doc => renderPage env o now (cacheKey env body) doc.html w := by
  unfold postImage
  have hcode : (destructure body).code = some c := by simp [destructure, hc]
  simp only [hcode, ht, hmiss, Bool.not_true, Bool.false_eq_true, if_false]

theorem postImage_hit (env : Env) (o : Outcomes) (now : Nat) (body : Body) (w : World)
    (c : JVal) (b : Bytes) (hc : body.lookup "code" = some c) (ht : c.truthy = true)
    (hhit : cacheGet w.cache (cacheKey env body) now = some b) :
    postImage env o now body w = (.png b, w) := by
  unfold postImage
  have hcode : (destructure body).code = some c := by simp [destructure, hc]
  simp only [hcode, ht, hhit, Bool.not_true, Bool.false_eq_true, if_false]

theorem postImage_reject (env : Env) (o : Outcomes) (now : Nat) (body : Body) (w : World)
    (h : body.lookup "code" = none ∨ ∃ v, body.lookup "code" = some v ∧ v.truthy = false) :
    postImage env o now body w = (.json 400 [("error", "Code required")], w) := by
  unfold postImage
  rcases h with h | ⟨v, hv, ht⟩
  · simp [destructure, h]
  · simp [destructure, hv, ht]

/-! ### Lookups on the registries, away from the names inherited from `Object.prototype` -/

theorem getProp_of_not_inherited {α : Type} (table : List (String × α)) (key : String)
    (h : objectPrototypeNames.contains key = false) :
    getProp table key = match table.lookup key with
      | some v => .own v
      | none => .undefined := by
  unfold getProp
  cases table.lookup key with
  | some v => rfl
  | none => simp only [h, Bool.false_eq_true, if_false]

theorem themeColors_of_not_inherited (name : String)
    (h : objectPrototypeNames.contains name = false) :
    themeColors (.str name) = .ok (.palette ((themes.lookup name).getD theme_light)) := by
  unfold themeColors
  simp only [JVal.toStr, bind, Except.bind, getProp_of_not_inherited themes name h]
  cases themes.lookup name <;> rfl

theorem backgroundStyle_of_not_inherited (s : String) (angle : JVal)
    (h : objectPrototypeNames.contains s = false) :
    backgroundStyle (.str s) angle
      = .ok (if s = "transparent" then .text "transparent"
             else match gradients.lookup s with
               | some g => .text g
               | none => .json (.str s)) := by
  unfold backgroundStyle
  by_cases ht : s = "transparent"
  · simp [JVal.strictEqStr, ht]
    rfl
  · simp only [JVal.strictEqStr, beq_iff_eq, ht, if_false, JVal.toStr, bind, Except.bind,
      getProp_of_not_inherited gradients s h, Bool.false_eq_true]
    cases gradients.lookup s <;> rfl

/-! ### Claims -/

/-- C1: a request whose `code` field is absent, or present but empty (falsy), is answered
with status 400 and the body `error: Code required`, and the process state is returned
untouched: `getBrowser` is not called, nothing is launched, `browser` and `browserError`
keep their values. -/
theorem postImage_code_required (env : Env) (o : Outcomes) (now : Nat) (body : Body) (w : World)
    (h : body.lookup "code" = none ∨ ∃ v, body.lookup "code" = some v ∧ v.truthy = false) :
    postImage env o now body w = (.json 400 [("error", "Code required")], w)
      ∧ (postImage env o now body w).2.acquisitions = w.acquisitions
      ∧ (postImage env o now body w).2.launches = w.launches
      ∧ (postImage env o now body w).2.browser = w.browser
      ∧ (postImage env o now body w).2.browserError = w.browserError := by
  rw [postImage_reject env o now body w h]
  exact ⟨rfl, rfl, rfl, rfl, rfl⟩

/-- Witness of C1: the empty body, on the initial state. -/
theorem postImage_code_required_witness :
    postImage sampleEnv (renderOk 1 1 [137, 80]) 0 [] World.initial
        = (.json 400 [("error", "Code required")], World.initial)
      ∧ (postImage sampleEnv (renderOk 1 1 [137, 80]) 0 [] World.initial).2.acquisitions
        = World.initial.acquisitions
      ∧ (postImage sampleEnv (renderOk 1 1 [137, 80]) 0 [] World.initial).2.launches
        = World.initial.launches
      ∧ (postImage sampleEnv (renderOk 1 1 [137, 80]) 0 [] World.initial).2.browser
        = World.initial.browser
      ∧ (postImage sampleEnv (renderOk 1 1 [137, 80]) 0 [] World.initial).2.browserError
        = World.initial.browserError :=
  postImage_code_required sampleEnv (renderOk 1 1 [137, 80]) 0 [] World.initial (Or.inl rfl)

/-- C2: when a first request with non-empty `code` misses the cache and is answered with the
image bytes `b`, a second request whose body serializes to the same text, arriving before the
entry expires, derives the same cache key and is answered with exactly `b`; the process state
is returned untouched, so `getBrowser` is not called, nothing is launched and no page is
opened. -/
theorem postImage_cache_hit (env : Env) (o₁ o₂ : Outcomes) (now₁ now₂ : Nat)
    (body₁ body₂ : Body) (w : World) (b : Bytes) (c₁ c₂ : JVal)
    (hc₁ : body₁.lookup "code" = some c₁) (ht₁ : c₁.truthy = true)
    (hc₂ : body₂.lookup "code" = some c₂) (ht₂ : c₂.truthy = true)
    (hsame : env.stringify body₂ = env.stringify body₁)
    (hmiss : cacheGet w.cache (cacheKey env body₁) now₁ = none)
    (hfirst : (postImage env o₁ now₁ body₁ w).1 = .png b)
    (hlive : now₂ ≤ now₁ + o₁.elapsed + cacheTtl) :
    cacheKey env body₂ = cacheKey env body₁
      ∧ postImage env o₂ now₂ body₂ (postImage env o₁ now₁ body₁ w).2
          = (.png b, (postImage env o₁ now₁ body₁ w).2)
      ∧ (postImage env o₂ now₂ body₂ (postImage env o₁ now₁ body₁ w).2).2.log
          = (postImage env o₁ now₁ body₁ w).2.log := by
  have hkey : cacheKey env body₂ = cacheKey env body₁ := by
    unfold cacheKey
    rw [hsame]
  have hcache : ∃ c, (postImage env o₁ now₁ body₁ w).2.cache
      = cacheSet c (cacheKey env body₁) b (now₁ + o₁.elapsed) := by
    rw [postImage_miss env o₁ now₁ body₁ w c₁ hc₁ ht₁ hmiss] at hfirst ⊢
    cases hdoc : compose env (destructure body₁) c₁ with
    | error e => simp [hdoc] at hfirst
    | ok doc =>
      simp only [hdoc] at hfirst ⊢
      exact renderPage_png env o₁ now₁ _ _ w _ b (Prod.ext hfirst rfl)
  obtain ⟨c, hc⟩ := hcache
  have hhit : postImage env o₂ now₂ body₂ (postImage env o₁ now₁ body₁ w).2
      = (.png b, (postImage env o₁ now₁ body₁ w).2) := by
    apply postImage_hit env o₂ now₂ body₂ _ c₂ b hc₂ ht₂
    rw [hkey, hc]
    exact cacheGet_cacheSet _ _ _ _ _ hlive
  exact ⟨hkey, hhit, by rw [hhit]⟩

/-- Witness of C2: a first render on the initial state, then the same body 5 minutes later
with an engine that would fail to launch. -/
theorem postImage_cache_hit_witness :
    cacheKey sampleEnv [("code", .str "let x = 1")] = cacheKey sampleEnv [("code", .str "let x = 1")]
      ∧ postImage sampleEnv (renderOk 2 2 [0]) 300000 [("code", .str "let x = 1")]
            (postImage sampleEnv (renderOk 1 1 [137, 80]) 0 [("code", .str "let x = 1")]
              World.initial).2
          = (.png [137, 80],
             (postImage sampleEnv (renderOk 1 1 [137, 80]) 0 [("code", .str "let x = 1")]
              World.initial).2)
      ∧ (postImage sampleEnv (renderOk 2 2 [0]) 300000 [("code", .str "let x = 1")]
            (postImage sampleEnv (renderOk 1 1 [137, 80]) 0 [("code", .str "let x = 1")]
              World.initial).2).2.log
          = (postImage sampleEnv (renderOk 1 1 [137, 80]) 0 [("code", .str "let x = 1")]
              World.initial).2.log :=
  postImage_cache_hit sampleEnv (renderOk 1 1 [137, 80]) (renderOk 2 2 [0]) 0 300000
    [("code", .str "let x = 1")] [("code", .str "let x = 1")] World.initial [137, 80]
    (.str "let x = 1") (.str "let x = 1") rfl rfl rfl rfl rfl rfl rfl (by decide)

/-- C3: for every parameter set (any language, any `lineNumbersStyle`) and every code string,
the line-number text is the decimal numbers 1..N joined by newlines when `showLineNumbers` is
enabled, N being the number of newline-delimited lines of the CRLF-normalized code, and the
column that carries it is emitted; when `showLineNumbers` is disabled the text is empty and
the column substitution is the empty string. -/
theorem lineNumbers_one_to_N (p : Params) (code : String) :
    lineNumbers p.showLineNumbers (formattedCode code p.language)
        = (if p.showLineNumbers.truthy then
            "\n".intercalate ((List.range' 1 (splitNewline (replaceCrLf code.data)).length).map
              Nat.repr)
           else "")
      ∧ lineNumbersColumn p.showLineNumbers
            (lineNumbers p.showLineNumbers (formattedCode code p.language))
        = (if p.showLineNumbers.truthy then
            "<pre class=\"line-numbers\"><code>"
              ++ "\n".intercalate
                  ((List.range' 1 (splitNewline (replaceCrLf code.data)).length).map Nat.repr)
              ++ "</code></pre>"
           else "") := by
  have hcol : ∀ n, numberColumn n = "\n".intercalate ((List.range' 1 n).map Nat.repr) := by
    intro n
    unfold numberColumn
    rw [List.range'_eq_map_range, List.map_map]
    congr 1
    apply List.map_congr_left
    intro i _
    simp [Nat.add_comm, toString, instToStringNat]
  unfold lineNumbers lineNumbersColumn
  rw [lineCount_formattedCode, hcol]
  by_cases h : p.showLineNumbers.truthy = true <;> simp [h]

/-- C4: for `javascript` and `typescript` the formatted code equals the specification's walk
(drop the carriage return of every CRLF, split on newlines, keep a nesting counter from 0,
decrement to at least 0 before a line that closes without opening, emit the blank line or
2*d spaces and the trimmed text, increment after a line that opens without closing, join
with newlines); for every other language the code is only CRLF-normalized: the carriage
return of every CRLF is dropped and nothing else changes, so code without CRLF is returned
as submitted.  The last conjuncts give the expected text on concrete inputs. -/
theorem formattedCode_eq_spec (code plain : String) (language : JVal)
    (hjs : language ≠ .str "javascript") (hts : language ≠ .str "typescript")
    (hplain : ¬ ['\r', '\n'] <:+: plain.data) :
    formattedCode code (.str "javascript") = specFormat code
      ∧ formattedCode code (.str "typescript") = specFormat code
      ∧ formattedCode code language = ⟨specNormalize code.data⟩
      ∧ formattedCode plain language = plain
      ∧ formattedCode "a\r\nb\r\n" (.str "python") = "a\nb\n"
      ∧ formattedCode "  x\r\r\n\ty  " (.str "python") = "  x\r\n\ty  "
      ∧ formattedCode "function f() \x7b\r\n   return \x7b\n a: 1 \x7d;   \n\x7d\r\n" (.str "javascript") = "function f() \x7b\n  return \x7b\n  a: 1 \x7d;\n\x7d\n"
      ∧ formattedCode "function f() \x7b\r\n   return \x7b\n a: 1 \x7d;   \n\x7d\r\n" (.str "typescript") = "function f() \x7b\n  return \x7b\n  a: 1 \x7d;\n\x7d\n"
      ∧ specFormat "function f() \x7b\r\n   return \x7b\n a: 1 \x7d;   \n\x7d\r\n" = "function f() \x7b\n  return \x7b\n  a: 1 \x7d;\n\x7d\n" := by
  have hwalk := indentLines_eq_specWalk 0 (splitNewline (replaceCrLf code.data))
  simp only [Nat.cast_zero] at hwalk
  have hspec : (⟨joinNewline (indentLines 0 (splitNewline (replaceCrLf code.data)))⟩ : String)
      = specFormat code := by
    unfold specFormat
    rw [hwalk, joinNewline_eq_intercalate, splitNewline_eq_splitOn,
      replaceCrLf_eq_specNormalize]
  have hother : ∀ c : String, formattedCode c language = ⟨replaceCrLf c.data⟩ := by
    intro c
    unfold formattedCode
    have h₁ : language.strictEqStr "javascript" = false := by
      cases language <;> simp_all [JVal.strictEqStr]
    have h₂ : language.strictEqStr "typescript" = false := by
      cases language <;> simp_all [JVal.strictEqStr]
    simp [h₁, h₂]
  refine ⟨?_, ?_, ?_, ?_, by decide, by decide, by decide, by decide, by decide⟩
  · rw [← hspec]
    simp [formattedCode, JVal.strictEqStr]
  · rw [← hspec]
    simp [formattedCode, JVal.strictEqStr]
  · rw [hother, replaceCrLf_eq_specNormalize]
  · rw [hother, replaceCrLf_eq_specNormalize, specNormalize_of_no_crlf _ hplain]

/-- Witness of C4: Windows line endings in a language that is not re-indented, and a code
without CRLF whose indentation and trailing blanks are kept. -/
theorem formattedCode_eq_spec_witness :
    formattedCode "if x:\r\n    y = \x7b\x7d\r\n" (.str "python")
        = ⟨specNormalize "if x:\r\n    y = \x7b\x7d\r\n".data⟩
      ∧ formattedCode "if x:\n\ty = 1  \r" (.str "python") = "if x:\n\ty = 1  \r"
      ∧ formattedCode "a\r\nb\r\n" (.str "python") = "a\nb\n"
      ∧ formattedCode "function f() \x7b\r\n   return \x7b\n a: 1 \x7d;   \n\x7d\r\n" (.str "javascript") = "function f() \x7b\n  return \x7b\n  a: 1 \x7d;\n\x7d\n" :=
  have h := formattedCode_eq_spec "if x:\r\n    y = \x7b\x7d\r\n" "if x:\n\ty = 1  \r"
    (.str "python") (by simp) (by simp) (by decide)
  ⟨h.2.2.1, h.2.2.2.1, h.2.2.2.2.1, h.2.2.2.2.2.2.1⟩

/-- C5 (what the code does at the failing input): the selector `constructor` is neither
`transparent`, nor a registered gradient, nor a list of stops, yet it is not passed through:
the read `gradients[background]` finds the inherited function `Object`, and that function is
what is interpolated as the CSS background value. -/
theorem backgroundStyle_constructor :
    gradients.lookup "constructor" = none
      ∧ (backgroundStyle (.str "constructor") (.str "135deg") >>= StyleValue.toStr)
          = .ok "function Object() \x7b [native code] \x7d"
      ∧ (backgroundStyle (.str "constructor") (.str "135deg") >>= StyleValue.toStr)
          ≠ .ok "constructor" := by
  refine ⟨rfl, rfl, ?_⟩
  intro h
  have h₂ : (backgroundStyle (.str "constructor") (.str "135deg") >>= StyleValue.toStr)
      = .ok "function Object() \x7b [native code] \x7d" := rfl
  rw [h₂] at h
  exact absurd (Except.ok.inj h) (by decide)

/-- C6 (what the code does at the failing input): the theme name `constructor` is not a
registered theme, yet it does not resolve to the `light` palette: the read `themes[theme]`
finds the inherited function `Object`, which has none of the 8 colour roles, so every role
is interpolated as `undefined`. -/
theorem themeColors_constructor :
    themes.lookup "constructor" = none
      ∧ themeColors (.str "constructor") = .ok (.inherited "constructor")
      ∧ themeColors (.str "constructor") ≠ .ok (.palette theme_light)
      ∧ (ThemeColors.inherited "constructor").role ThemeSpec.bg = "undefined"
      ∧ (ThemeColors.inherited "constructor").role ThemeSpec.fg = "undefined" := by
  refine ⟨rfl, rfl, ?_, rfl, rfl⟩
  intro h
  have h₂ : themeColors (.str "constructor") = .ok (.inherited "constructor") := rfl
  rw [h₂] at h
  exact absurd (Except.ok.inj h) (by decide)

/-- C7 (as stated, refuted at the language `JavaScript`): with no file name and no title the
displayed name is `JavaScript.js`.  Read with exact identifiers the claim gives
`JavaScript.txt`, read without regard to case it gives `script.js`; the code compares the
base with `javascript` exactly but looks the extension up under the lower-cased identifier. -/
theorem displayFileName_mixed_case :
    (displayFileName (destructure [("code", .str "x"), ("language", .str "JavaScript")])
          >>= StyleValue.toStr) = .ok "JavaScript.js"
      ∧ specDefaultName "JavaScript" = "JavaScript.txt"
      ∧ specDefaultNameCaseless "JavaScript" = "script.js"
      ∧ (displayFileName (destructure [("code", .str "x"), ("language", .str "JavaScript")])
          >>= StyleValue.toStr) ≠ .ok (specDefaultName "JavaScript")
      ∧ (displayFileName (destructure [("code", .str "x"), ("language", .str "JavaScript")])
          >>= StyleValue.toStr) ≠ .ok (specDefaultNameCaseless "JavaScript") := by
  have h₁ : (displayFileName (destructure [("code", .str "x"), ("language", .str "JavaScript")])
      >>= StyleValue.toStr) = .ok "JavaScript.js" := rfl
  have h₂ : specDefaultName "JavaScript" = "JavaScript.txt" := rfl
  have h₃ : specDefaultNameCaseless "JavaScript" = "script.js" := rfl
  refine ⟨h₁, h₂, h₃, ?_, ?_⟩
  · rw [h₁, h₂]
    intro h
    exact absurd (Except.ok.inj h) (by decide)
  · rw [h₁, h₃]
    intro h
    exact absurd (Except.ok.inj h) (by decide)

/-- C7 (amended): the displayed file name is `fileName` when it is non-empty (truthy),
otherwise `title` when it is non-empty, otherwise `<base>.<ext>` where `<base>` is `script`
when the language is exactly `javascript` and the language identifier as submitted otherwise,
and `<ext>` is the extension registered for the lower-cased identifier, or `txt` when the
lower-cased identifier has none; stated for identifiers whose lower-cased form is not a name
inherited from `Object.prototype`. -/
theorem displayFileName_resolution (p : Params) (l : String) (hl : p.language = .str l)
    (h : objectPrototypeNames.contains (toLowerCase l) = false) :
    displayFileName p
      = .ok (if p.fileName.truthy then .json p.fileName
             else if p.title.truthy then .json p.title
             else .text ((if l = "javascript" then "script" else l) ++ "."
               ++ (extensions.lookup (toLowerCase l)).getD "txt")) := by
  unfold displayFileName
  by_cases hf : p.fileName.truthy = true
  · simp [hf]; rfl
  · by_cases ht : p.title.truthy = true
    · simp [hf, ht]; rfl
    · simp only [hf, ht, if_false, hl, getExtensionForLanguage, langLower, JVal.strictEqStr,
        getProp_of_not_inherited extensions _ h, Bool.false_eq_true]
      have hg := getProp_of_not_inherited extensions _ h
      by_cases hj : l = "javascript"
      · subst hj
        cases hx : extensions.lookup (toLowerCase "javascript") <;> rw [hx] at hg <;>
          simp [bind, Except.bind, pure, Except.pure, StyleValue.toStr, hg]
      · cases hx : extensions.lookup (toLowerCase l) <;> rw [hx] at hg <;>
          simp [bind, Except.bind, pure, Except.pure, StyleValue.toStr, JVal.toStr, hj, hg]

/-- Witness of C7 (amended): the language `Python` with no file name and no title. -/
theorem displayFileName_resolution_witness :
    displayFileName (destructure [("code", .str "x"), ("language", .str "Python")])
      = .ok (if (destructure [("code", .str "x"), ("language", .str "Python")]).fileName.truthy
             then .json (destructure [("code", .str "x"), ("language", .str "Python")]).fileName
             else if (destructure [("code", .str "x"), ("language", .str "Python")]).title.truthy
             then .json (destructure [("code", .str "x"), ("language", .str "Python")]).title
             else .text ((if "Python" = "javascript" then "script" else "Python") ++ "."
               ++ (extensions.lookup (toLowerCase "Python")).getD "txt")) :=
  displayFileName_resolution (destructure [("code", .str "x"), ("language", .str "Python")])
    "Python" rfl rfl

/-- The slip left out of the amended C7: the language `constructor` has no registered
extension, yet the read `extensions[lang.toLowerCase()]` finds the inherited function
`Object`, and the displayed name is `constructor.` followed by the text of that function. -/
theorem displayFileName_constructor :
    extensions.lookup (toLowerCase "constructor") = none
      ∧ (displayFileName (destructure [("code", .str "x"), ("language", .str "constructor")])
            >>= StyleValue.toStr)
          = .ok "constructor.function Object() \x7b [native code] \x7d" := by
  exact ⟨rfl, rfl⟩

/-! ### The session singleton -/

theorem getBrowser_ready (env : Env) (o : LaunchOutcome) (w : World) (h : Handle)
    (hr : w.browser = some h) :
    getBrowser env o w = (.ok h, { w with log := w.log ++ [Event.acquire] }) := by
  unfold getBrowser
  simp [hr]

theorem getBrowser_error (env : Env) (o : LaunchOutcome) (w : World) (e : JsError)
    (hb : w.browser = none) (he : w.browserError = some e) :
    getBrowser env o w = (.error e, { w with log := w.log ++ [Event.acquire] }) := by
  unfold getBrowser
  simp [hb, he]

theorem getBrowser_launches (env : Env) (o : LaunchOutcome) (w : World) :
    (getBrowser env o w).2.launches
      = w.launches + (if w.browser = none ∧ w.browserError = none then 1 else 0) := by
  unfold getBrowser World.launches
  cases hb : w.browser <;> cases he : w.browserError <;> cases hp : o.executablePath <;>
    cases hl : o.launch <;> simp [List.count_append, List.count_cons]

theorem getBrowser_launchCalls_le (env : Env) (o : LaunchOutcome) (w : World) :
    (getBrowser env o w).2.launchCalls
      ≤ w.launchCalls + (if w.browser = none ∧ w.browserError = none then 1 else 0) := by
  unfold getBrowser World.launchCalls
  cases hb : w.browser <;> cases he : w.browserError <;> cases hp : o.executablePath <;>
    cases hl : o.launch <;> simp [List.countP_append, List.countP_cons]

theorem getBrowser_unset_ok (env : Env) (o : LaunchOutcome) (w : World) (h : Handle)
    (hu : w.isUnset) (hok : o.result = .ok h) :
    (getBrowser env o w).1 = .ok h ∧ (getBrowser env o w).2.browser = some h
      ∧ (getBrowser env o w).2.browserError = none
      ∧ h ∈ (getBrowser env o w).2.listeners
      ∧ (getBrowser env o w).2.launchCalls = w.launchCalls + 1 := by
  obtain ⟨hb, he⟩ := hu
  unfold LaunchOutcome.result at hok
  unfold getBrowser World.launchCalls
  cases hp : o.executablePath with
  | error e => simp [hp] at hok
  | ok path =>
    simp only [hp] at hok
    simp [hb, he, hok, List.countP_append, List.countP_cons]

theorem acquireAll_ready (env : Env) (os : List LaunchOutcome) (w : World) (h : Handle)
    (hr : w.browser = some h) :
    (acquireAll env os w).2.launches = w.launches
      ∧ (acquireAll env os w).2.browser = some h
      ∧ ∀ r ∈ (acquireAll env os w).1, r = .ok h := by
  induction os generalizing w with
  | nil => simp [acquireAll, hr]
  | cons o os ih =>
    have hstep := getBrowser_ready env o w h hr
    have hl := getBrowser_launches env o w
    have ih2 := ih (getBrowser env o w).2 (by rw [hstep]; exact hr)
    simp only [acquireAll]
    refine ⟨?_, ih2.2.1, ?_⟩
    · rw [ih2.1, hl]
      simp [hr]
    · intro r hmem
      rcases List.mem_cons.mp hmem with h₁ | h₁
      · rw [h₁, hstep]
      · exact ih2.2.2 r h₁

theorem acquireAll_error (env : Env) (os : List LaunchOutcome) (w : World) (e : JsError)
    (hb : w.browser = none) (he : w.browserError = some e) :
    (acquireAll env os w).2.launches = w.launches
      ∧ ∀ r ∈ (acquireAll env os w).1, r = .error e := by
  induction os generalizing w with
  | nil => simp [acquireAll]
  | cons o os ih =>
    have hstep := getBrowser_error env o w e hb he
    have hl := getBrowser_launches env o w
    have ih2 := ih (getBrowser env o w).2 (by rw [hstep]; exact hb) (by rw [hstep]; exact he)
    simp only [acquireAll]
    refine ⟨?_, ?_⟩
    · rw [ih2.1, hl]
      simp [hb, he]
    · intro r hmem
      rcases List.mem_cons.mp hmem with h₁ | h₁
      · rw [h₁, hstep]
      · exact ih2.2 r h₁

theorem wellFormed_initial : World.initial.wellFormed := by
  intro h hb
  simp [World.initial] at hb

theorem wellFormed_getBrowser (env : Env) (o : LaunchOutcome) (w : World)
    (hw : w.wellFormed) : (getBrowser env o w).2.wellFormed := by
  unfold getBrowser
  cases hb : w.browser with
  | some h₀ =>
    intro h hh
    simp only at hh ⊢
    exact hw h (by rw [← hh, hb])
  | none =>
    cases he : w.browserError with
    | some e =>
      intro h hh
      simp [hb] at hh
    | none =>
      cases hp : o.executablePath with
      | error e =>
        intro h hh
        simp [hb] at hh
      | ok path =>
        cases hl : o.launch with
        | error e =>
          intro h hh
          simp [hb] at hh
        | ok h₁ =>
          intro h hh
          simp only [Option.some.injEq] at hh
          subst hh
          simp [he]

theorem wellFormed_disconnected (h : Handle) (w : World) (hw : w.wellFormed) :
    (disconnected h w).wellFormed := by
  unfold disconnected
  split
  · intro h₁ hh
    simp at hh
  · exact hw

theorem renderPage_session (env : Env) (o : Outcomes) (now : Nat) (key doc : String)
    (w : World) :
    (renderPage env o now key doc w).2.browser = (getBrowser env o.session w).2.browser
      ∧ (renderPage env o now key doc w).2.browserError
          = (getBrowser env o.session w).2.browserError
      ∧ (renderPage env o now key doc w).2.listeners
          = (getBrowser env o.session w).2.listeners := by
  unfold renderPage
  repeat' split
  all_goals simp_all

theorem renderPage_status (env : Env) (o : Outcomes) (now : Nat) (key doc : String)
    (w : World) :
    (∃ b, (renderPage env o now key doc w).1 = .png b)
      ∨ ∃ e, (renderPage env o now key doc w).1 = browserFailure e := by
  unfold renderPage
  repeat' split
  all_goals first
    | exact Or.inl ⟨_, rfl⟩
    | exact Or.inr ⟨_, rfl⟩

theorem wellFormed_postImage (env : Env) (o : Outcomes) (now : Nat) (body : Body) (w : World)
    (hw : w.wellFormed) : (postImage env o now body w).2.wellFormed := by
  cases hc : body.lookup "code" with
  | none => rw [postImage_reject env o now body w (Or.inl hc)]; exact hw
  | some c =>
    cases ht : c.truthy with
    | false => rw [postImage_reject env o now body w (Or.inr ⟨c, hc, ht⟩)]; exact hw
    | true =>
      cases hget : cacheGet w.cache (cacheKey env body) now with
      | some b => rw [postImage_hit env o now body w c b hc ht hget]; exact hw
      | none =>
        rw [postImage_miss env o now body w c hc ht hget]
        cases hdoc : compose env (destructure body) c with
        | error e => exact hw
        | ok doc =>
          have hs := renderPage_session env o now (cacheKey env body) doc.html w
          have hg := wellFormed_getBrowser env o.session w hw
          intro h hh
          simp only at hh ⊢
          rw [hs.1] at hh
          rw [hs.2.1, hs.2.2]
          exact hg h hh

/-- C8: for a body whose only field is a non-empty `code`, destructuring substitutes the
documented defaults: the theme is `light` and resolves to the light palette, the language is
`javascript`, the background is `vivid` and resolves to the registered vivid gradient, line
numbers are on and the line-number column is emitted; the request is not rejected as a
client error. -/
theorem destructure_defaults (env : Env) (o : Outcomes) (now : Nat) (w : World) (c : String)
    (hc : c ≠ "") :
    (destructure [("code", .str c)]).code = some (.str c)
      ∧ (destructure [("code", .str c)]).theme = .str "light"
      ∧ themeColors (destructure [("code", .str c)]).theme = .ok (.palette theme_light)
      ∧ (destructure [("code", .str c)]).language = .str "javascript"
      ∧ (destructure [("code", .str c)]).background = .str "vivid"
      ∧ gradients.lookup "vivid" = some "linear-gradient(135deg, #ee0979, #ff6a00)"
      ∧ backgroundStyle (destructure [("code", .str c)]).background
            (destructure [("code", .str c)]).gradientAngle
          = .ok (.text "linear-gradient(135deg, #ee0979, #ff6a00)")
      ∧ (destructure [("code", .str c)]).showLineNumbers = .bool true
      ∧ (∀ text, lineNumbersColumn (destructure [("code", .str c)]).showLineNumbers text
          = "<pre class=\"line-numbers\"><code>" ++ text ++ "</code></pre>")
      ∧ (postImage env o now [("code", .str c)] w).1 ≠ .json 400 [("error", "Code required")] := by
  refine ⟨rfl, rfl, rfl, rfl, rfl, rfl, rfl, rfl, fun _ => rfl, ?_⟩
  have ht : (JVal.str c).truthy = true := by simp [JVal.truthy, hc]
  cases hget : cacheGet w.cache (cacheKey env [("code", .str c)]) now with
  | some b =>
    rw [postImage_hit env o now [("code", .str c)] w (.str c) b rfl ht hget]
    simp
  | none =>
    rw [postImage_miss env o now [("code", .str c)] w (.str c) rfl ht hget]
    cases hdoc : compose env (destructure [("code", .str c)]) (.str c) with
    | error e => simp
    | ok doc =>
      simp only
      rcases renderPage_status env o now (cacheKey env [("code", .str c)]) doc.html w with
        ⟨b, hb⟩ | ⟨e, he⟩
      · rw [hb]; simp
      · rw [he]; simp [browserFailure]

/-- Witness of C8: the body holding only `code: "let x = 1"`. -/
theorem destructure_defaults_witness :
    (destructure [("code", .str "let x = 1")]).theme = .str "light"
      ∧ (destructure [("code", .str "let x = 1")]).language = .str "javascript"
      ∧ (postImage sampleEnv (renderOk 1 1 [137, 80]) 0 [("code", .str "let x = 1")]
          World.initial).1 ≠ .json 400 [("error", "Code required")] :=
  have h := destructure_defaults sampleEnv (renderOk 1 1 [137, 80]) 0 World.initial
    "let x = 1" (by decide)
  ⟨h.2.1, h.2.2.2.1, h.2.2.2.2.2.2.2.2.2⟩

theorem getBrowser_unset_error (env : Env) (o : LaunchOutcome) (w : World) (e : JsError)
    (hu : w.isUnset) (hfail : o.result = .error e) :
    (getBrowser env o w).1 = .error e ∧ (getBrowser env o w).2.browser = none
      ∧ (getBrowser env o w).2.browserError = some e := by
  obtain ⟨hb, he⟩ := hu
  unfold LaunchOutcome.result at hfail
  unfold getBrowser
  cases hp : o.executablePath with
  | error e₀ =>
    simp only [hp, Except.error.injEq] at hfail
    simp [hb, he, hfail]
  | ok path =>
    simp only [hp] at hfail
    simp [hb, he, hfail]

/-- C9: in the sequential model `getBrowser` starts a launch only from `Unset`.  A launch
that succeeds from `Unset` leaves `Ready`; there `getBrowser` returns the held handle with
no launch, so after a first successful acquisition from a state with launch count `n` any
number of further acquisitions return the same handle and leave the count at `n + 1`.  A
launch that fails from `Unset` leaves `Error` with the failure remembered; there
`getBrowser` throws the remembered error with no launch, so after a failed launch any number
of further acquisitions, whatever the engine would answer, throw that same error and leave
the count at `n + 1`.  In `Ready` and in `Error` the variables `browser` and `browserError`
keep their values. -/
theorem getBrowser_launch_only_when_unset (env : Env) (o o₀ o₁ : LaunchOutcome)
    (os : List LaunchOutcome) (w wr we w₀ w₁ : World) (h h₀ : Handle) (e e₁ : JsError)
    (hr : wr.isReady h) (he : we.isError e) (hu : w₀.isUnset) (hfirst : o₀.result = .ok h₀)
    (hu₁ : w₁.isUnset) (hfail : o₁.result = .error e₁) :
    (getBrowser env o w).2.launches
        = w.launches + (if w.browser = none ∧ w.browserError = none then 1 else 0)
      ∧ (getBrowser env o w).2.launchCalls
        ≤ w.launchCalls + (if w.browser = none ∧ w.browserError = none then 1 else 0)
      ∧ ((getBrowser env o wr).1 = .ok h
          ∧ (getBrowser env o wr).2.launches = wr.launches
          ∧ (getBrowser env o wr).2.launchCalls = wr.launchCalls
          ∧ (getBrowser env o wr).2.browser = wr.browser
          ∧ (getBrowser env o wr).2.browserError = wr.browserError)
      ∧ ((getBrowser env o we).1 = .error e
          ∧ (getBrowser env o we).2.launches = we.launches
          ∧ (getBrowser env o we).2.launchCalls = we.launchCalls
          ∧ (getBrowser env o we).2.browser = we.browser
          ∧ (getBrowser env o we).2.browserError = we.browserError
          ∧ (acquireAll env os we).2.launches = we.launches
          ∧ ∀ r ∈ (acquireAll env os we).1, r = .error e)
      ∧ ((getBrowser env o₀ w₀).1 = .ok h₀
          ∧ (getBrowser env o₀ w₀).2.launches = w₀.launches + 1
          ∧ (acquireAll env os (getBrowser env o₀ w₀).2).2.launches = w₀.launches + 1
          ∧ (∀ r ∈ (acquireAll env os (getBrowser env o₀ w₀).2).1, r = .ok h₀)
          ∧ (getBrowser env o₀ w₀).2.isReady h₀)
      ∧ ((getBrowser env o₁ w₁).1 = .error e₁
          ∧ (getBrowser env o₁ w₁).2.isError e₁
          ∧ (getBrowser env o₁ w₁).2.launches = w₁.launches + 1
          ∧ (acquireAll env os (getBrowser env o₁ w₁).2).2.launches = w₁.launches + 1
          ∧ ∀ r ∈ (acquireAll env os (getBrowser env o₁ w₁).2).1, r = .error e₁) := by
  refine ⟨getBrowser_launches env o w, getBrowser_launchCalls_le env o w, ?_, ?_, ?_, ?_⟩
  · rw [getBrowser_ready env o wr h hr]
    simp [World.launches, World.launchCalls, List.count_append, List.countP_append]
  · have hall := acquireAll_error env os we e he.1 he.2
    rw [getBrowser_error env o we e he.1 he.2]
    refine ⟨rfl, ?_, ?_, rfl, rfl, hall.1, hall.2⟩
    · simp [World.launches, List.count_append]
    · simp [World.launchCalls, List.countP_append]
  · have hfst := getBrowser_unset_ok env o₀ w₀ h₀ hu hfirst
    have hl := getBrowser_launches env o₀ w₀
    have hall := acquireAll_ready env os (getBrowser env o₀ w₀).2 h₀ hfst.2.1
    simp only [hu.1, hu.2, and_self, if_true] at hl
    exact ⟨hfst.1, hl, by rw [hall.1, hl], hall.2.2, hfst.2.1⟩
  · have hfst := getBrowser_unset_error env o₁ w₁ e₁ hu₁ hfail
    have hl := getBrowser_launches env o₁ w₁
    have hall := acquireAll_error env os (getBrowser env o₁ w₁).2 e₁ hfst.2.1 hfst.2.2
    simp only [hu₁.1, hu₁.2, and_self, if_true] at hl
    exact ⟨hfst.1, ⟨hfst.2.1, hfst.2.2⟩, hl, by rw [hall.1, hl], hall.2⟩

/-- Witness of C9: on the initial state, a first launch that succeeds followed by three more
acquisitions, and a first launch that fails followed by three acquisitions whose launches
would have succeeded; the results and launch counts are also evaluated. -/
theorem getBrowser_launch_only_when_unset_witness :
    (getBrowser sampleEnv (launchOk 9) (readyWorld 7)).1 = .ok 7
      ∧ (getBrowser sampleEnv (launchOk 9) (errorWorld ⟨"spawn ENOENT"⟩)).1
          = .error ⟨"spawn ENOENT"⟩
      ∧ (acquireAll sampleEnv [launchOk 8, launchFails ⟨"spawn ENOENT"⟩, launchOk 9]
          (getBrowser sampleEnv (launchOk 7) World.initial).2).2.launches
          = World.initial.launches + 1
      ∧ (getBrowser sampleEnv (launchFails ⟨"spawn ENOENT"⟩) World.initial).2.isError
          ⟨"spawn ENOENT"⟩
      ∧ (acquireAll sampleEnv [launchOk 8, launchFails ⟨"spawn ENOENT"⟩, launchOk 9]
          (getBrowser sampleEnv (launchFails ⟨"spawn ENOENT"⟩) World.initial).2).2.launches
          = World.initial.launches + 1
      ∧ (acquireAll sampleEnv [launchOk 8, launchFails ⟨"EACCES"⟩, launchOk 9]
          (getBrowser sampleEnv (launchFails ⟨"spawn ENOENT"⟩) World.initial).2).1
          = [.error ⟨"spawn ENOENT"⟩, .error ⟨"spawn ENOENT"⟩, .error ⟨"spawn ENOENT"⟩]
      ∧ (acquireAll sampleEnv [launchOk 8, launchFails ⟨"EACCES"⟩, launchOk 9]
          (getBrowser sampleEnv (launchFails ⟨"spawn ENOENT"⟩) World.initial).2).2.launches = 1
      ∧ (acquireAll sampleEnv [launchOk 8, launchFails ⟨"EACCES"⟩, launchOk 9]
          (getBrowser sampleEnv (launchOk 7) World.initial).2).1 = [.ok 7, .ok 7, .ok 7]
      ∧ (acquireAll sampleEnv [launchOk 8, launchFails ⟨"EACCES"⟩, launchOk 9]
          (getBrowser sampleEnv (launchOk 7) World.initial).2).2.launchCalls = 1 :=
  have h := getBrowser_launch_only_when_unset sampleEnv (launchOk 9) (launchOk 7)
    (launchFails ⟨"spawn ENOENT"⟩)
    [launchOk 8, launchFails ⟨"spawn ENOENT"⟩, launchOk 9] World.initial (readyWorld 7)
    (errorWorld ⟨"spawn ENOENT"⟩) World.initial World.initial 7 7 ⟨"spawn ENOENT"⟩
    ⟨"spawn ENOENT"⟩ rfl ⟨rfl, rfl⟩ ⟨rfl, rfl⟩ rfl ⟨rfl, rfl⟩ rfl
  ⟨h.2.2.1.1, h.2.2.2.1.1, h.2.2.2.2.1.2.2.1, h.2.2.2.2.2.2.1, h.2.2.2.2.2.2.2.2.1,
    rfl, by decide, rfl, by decide⟩

/-- C10: from a `Ready` state holding `h`, the disconnect notification of `h` clears the
handle, leaving `Unset` (no handle, no remembered error); the next `getBrowser` then starts
exactly one new launch, and when that launch succeeds with `h₂` it calls `puppeteer.launch`
once, returns `h₂` and leaves the session `Ready` with `h₂`. -/
theorem disconnected_then_relaunch (env : Env) (o o₂ : LaunchOutcome) (w : World)
    (h h₂ : Handle) (hw : w.wellFormed) (hr : w.isReady h) (hok : o₂.result = .ok h₂) :
    (disconnected h w).isUnset
      ∧ (disconnected h w).launches = w.launches
      ∧ (getBrowser env o (disconnected h w)).2.launches = w.launches + 1
      ∧ (getBrowser env o₂ (disconnected h w)).1 = .ok h₂
      ∧ (getBrowser env o₂ (disconnected h w)).2.isReady h₂
      ∧ (getBrowser env o₂ (disconnected h w)).2.launchCalls = w.launchCalls + 1
      ∧ (getBrowser env o₂ (disconnected h w)).2.wellFormed := by
  obtain ⟨hmem, herr⟩ := hw h hr
  have hd : disconnected h w = { w with browser := none } := by
    unfold disconnected
    simp [hmem]
  have hu : (disconnected h w).isUnset := by
    rw [hd]
    exact ⟨rfl, herr⟩
  have hl : (disconnected h w).launches = w.launches := by rw [hd]; rfl
  have hc : (disconnected h w).launchCalls = w.launchCalls := by rw [hd]; rfl
  have h₁ := getBrowser_launches env o (disconnected h w)
  simp only [hu.1, hu.2, and_self, if_true, hl] at h₁
  have h₃ := getBrowser_unset_ok env o₂ (disconnected h w) h₂ hu hok
  refine ⟨hu, hl, h₁, h₃.1, h₃.2.1, by rw [h₃.2.2.2.2, hc], ?_⟩
  exact wellFormed_getBrowser env o₂ _ (wellFormed_disconnected h w hw)

/-- Witness of C10: the sample `Ready` state holding handle 7, relaunched as handle 8. -/
theorem disconnected_then_relaunch_witness :
    (disconnected 7 (readyWorld 7)).isUnset
      ∧ (getBrowser sampleEnv (launchFails ⟨"spawn ENOENT"⟩)
          (disconnected 7 (readyWorld 7))).2.launches = (readyWorld 7).launches + 1
      ∧ (getBrowser sampleEnv (launchOk 8) (disconnected 7 (readyWorld 7))).1 = .ok 8
      ∧ (getBrowser sampleEnv (launchOk 8) (disconnected 7 (readyWorld 7))).2.isReady 8 :=
  have h := disconnected_then_relaunch sampleEnv (launchFails ⟨"spawn ENOENT"⟩) (launchOk 8)
    (readyWorld 7) 7 8
    (fun h hh => by
      have h7 : h = 7 := (Option.some.inj hh).symm
      subst h7
      exact ⟨by decide, rfl⟩)
    rfl rfl
  ⟨h.1, h.2.2.1, h.2.2.2.1, h.2.2.2.2.1⟩

/-! ### Re-indenting already re-indented code -/

theorem jsTrim_eq_rdropWhile (s : List Char) :
    jsTrim s = (s.dropWhile isJsWhiteSpace).rdropWhile isJsWhiteSpace := rfl

theorem jsTrim_last_not (s : List Char) (h : jsTrim s ≠ []) :
    isJsWhiteSpace ((jsTrim s).getLast h) = false := by
  have := List.rdropWhile_last_not (p := isJsWhiteSpace) (l := s.dropWhile isJsWhiteSpace) h
  simpa [jsTrim_eq_rdropWhile] using this

theorem dropWhile_head_not (s : List Char) (c : Char) (rest : List Char)
    (h : s.dropWhile isJsWhiteSpace = c :: rest) : isJsWhiteSpace c = false := by
  induction s with
  | nil => simp at h
  | cons a s ih =>
    rw [List.dropWhile_cons] at h
    cases ha : isJsWhiteSpace a with
    | true =>
      simp only [ha, if_true] at h
      exact ih h
    | false =>
      simp only [ha, Bool.false_eq_true, if_false, List.cons.injEq] at h
      rw [← h.1]
      exact ha

theorem jsTrim_head_not (s : List Char) (c : Char) (rest : List Char)
    (h : jsTrim s = c :: rest) : isJsWhiteSpace c = false := by
  have hpre : jsTrim s <+: s.dropWhile isJsWhiteSpace := by
    rw [jsTrim_eq_rdropWhile]
    exact List.rdropWhile_prefix _ _
  rw [h] at hpre
  obtain ⟨t, ht⟩ := hpre
  exact dropWhile_head_not s c (rest ++ t) ht.symm

theorem dropWhile_spaces_append (n : Nat) (t : List Char) :
    (List.replicate n ' ' ++ t).dropWhile isJsWhiteSpace = t.dropWhile isJsWhiteSpace := by
  induction n with
  | zero => rfl
  | succ n ih =>
    rw [List.replicate_succ, List.cons_append, List.dropWhile_cons]
    have hsp : isJsWhiteSpace ' ' = true := by decide
    simp only [hsp, if_true]
    exact ih

theorem jsTrim_spaces_append_jsTrim (n : Nat) (s : List Char) :
    jsTrim (List.replicate n ' ' ++ jsTrim s) = jsTrim s := by
  cases ht : jsTrim s with
  | nil =>
    unfold jsTrim
    rw [List.append_nil]
    have hall : (List.replicate n ' ').dropWhile isJsWhiteSpace = [] := by
      have := dropWhile_spaces_append n []
      simpa using this
    rw [hall]
    rfl
  | cons c rest =>
    have hhead := jsTrim_head_not s c rest ht
    have hne : jsTrim s ≠ [] := by rw [ht]; simp
    have hlast := jsTrim_last_not s hne
    rw [jsTrim_eq_rdropWhile (List.replicate n ' ' ++ c :: rest), dropWhile_spaces_append,
      List.dropWhile_cons]
    simp only [hhead, Bool.false_eq_true, if_false]
    rw [List.rdropWhile_eq_self_iff]
    intro hl
    have heq : (c :: rest).getLast hl = (jsTrim s).getLast hne := by
      simp only [ht]
    rw [heq, hlast]
    simp

theorem repeatTwoSpaces_eq_replicate (n : Int) :
    repeatTwoSpaces n = List.replicate (2 * n.toNat) ' ' := by
  have h := repeatTwoSpaces_eq n.toNat
  unfold repeatTwoSpaces at h ⊢
  simp only [Int.toNat_ofNat] at h
  exact h

theorem indentLine_congr (d : Int) (a b : List Char) (h : jsTrim a = jsTrim b) :
    indentLine d a = indentLine d b := by
  unfold indentLine
  simp only [h]

theorem jsTrim_indentLine (d : Int) (line : List Char) :
    jsTrim (indentLine d line).1 = jsTrim line := by
  unfold indentLine
  simp only
  by_cases ht : jsTrim line = []
  · simp only [ht, ne_eq, not_true_eq_false, if_false]
    rfl
  · simp only [ne_eq, ht, not_false_eq_true, if_true, repeatTwoSpaces_eq_replicate]
    exact jsTrim_spaces_append_jsTrim _ line

theorem indentLines_idempotent (d : Int) (ls : List (List Char)) :
    indentLines d (indentLines d ls) = indentLines d ls := by
  induction ls generalizing d with
  | nil => rfl
  | cons l rest ih =>
    have hc := indentLine_congr d (indentLine d l).1 l (jsTrim_indentLine d l)
    simp only [indentLines, hc, ih]

theorem indentLine_last_not_cr (d : Int) (line : List Char) :
    (indentLine d line).1.getLast? ≠ some '\r' := by
  unfold indentLine
  simp only
  by_cases ht : jsTrim line = []
  · simp [ht]
  · simp only [ne_eq, ht, not_false_eq_true, if_true]
    rw [List.getLast?_append_of_ne_nil _ ht, List.getLast?_eq_getLast _ ht]
    intro h
    have hlast := jsTrim_last_not line ht
    rw [Option.some.inj h] at hlast
    exact absurd hlast (by decide)

theorem indentLines_last_not_cr (d : Int) (ls : List (List Char)) :
    ∀ l ∈ indentLines d ls, l.getLast? ≠ some '\r' := by
  induction ls generalizing d with
  | nil => simp [indentLines]
  | cons l rest ih =>
    intro x hx
    simp only [indentLines, List.mem_cons] at hx
    rcases hx with hx | hx
    · subst hx
      exact indentLine_last_not_cr d l
    · exact ih _ x hx

theorem replaceCrLf_of_no_newline : ∀ (l : List Char), '\n' ∉ l → replaceCrLf l = l
  | [], _ => rfl
  | [_], _ => rfl
  | c :: d :: rest, h => by
    have hd : d ≠ '\n' := fun e => h (by simp [e])
    have ih := replaceCrLf_of_no_newline (d :: rest) (fun e => h (List.mem_cons_of_mem _ e))
    simp [replaceCrLf, hd, ih]

theorem replaceCrLf_newline_cons (rest : List Char) :
    replaceCrLf ('\n' :: rest) = '\n' :: replaceCrLf rest := by
  cases rest with
  | nil => rfl
  | cons d r => simp [replaceCrLf]

theorem replaceCrLf_append_newline : ∀ (l rest : List Char), '\n' ∉ l →
    l.getLast? ≠ some '\r' → replaceCrLf (l ++ '\n' :: rest) = l ++ '\n' :: replaceCrLf rest
  | [], rest, _, _ => replaceCrLf_newline_cons rest
  | [c], rest, _, hl => by
    have hc : c ≠ '\r' := fun e => hl (by simp [e])
    simp [replaceCrLf, hc, replaceCrLf_newline_cons]
  | c :: d :: l, rest, h, hl => by
    have hd : d ≠ '\n' := fun e => h (by simp [e])
    have ih := replaceCrLf_append_newline (d :: l) rest
      (fun e => h (List.mem_cons_of_mem _ e)) (by simpa using hl)
    simp only [List.cons_append] at ih ⊢
    simp [replaceCrLf, hd, ih]

theorem replaceCrLf_joinNewline (ls : List (List Char)) (hn : ∀ l ∈ ls, '\n' ∉ l)
    (hr : ∀ l ∈ ls, l.getLast? ≠ some '\r') :
    replaceCrLf (joinNewline ls) = joinNewline ls := by
  induction ls with
  | nil => rfl
  | cons l rest ih =>
    cases rest with
    | nil => simpa [joinNewline] using replaceCrLf_of_no_newline l (hn l (by simp))
    | cons m rest =>
      have ih2 := ih (fun x hx => hn x (List.mem_cons_of_mem _ hx))
        (fun x hx => hr x (List.mem_cons_of_mem _ hx))
      simp only [joinNewline] at ih2 ⊢
      rw [replaceCrLf_append_newline l _ (hn l (by simp)) (hr l (by simp)), ih2]

theorem formatLines_fixed (ls : List (List Char)) (hne : ls ≠ []) (hn : ∀ l ∈ ls, '\n' ∉ l) :
    joinNewline (indentLines 0 (splitNewline (replaceCrLf (joinNewline (indentLines 0 ls)))))
      = joinNewline (indentLines 0 ls) := by
  have hout_n := indentLines_no_newline 0 ls hn
  have hout_r := indentLines_last_not_cr 0 ls
  have hout_ne : indentLines 0 ls ≠ [] := by
    intro h
    have := congrArg List.length h
    rw [indentLines_length] at this
    exact hne (List.length_eq_zero.mp this)
  rw [replaceCrLf_joinNewline _ hout_n hout_r, splitNewline_joinNewline _ hout_ne hout_n,
    indentLines_idempotent]

/-- C14: the brace-aware re-indentation applied to `javascript` and `typescript` code is
idempotent: for every code string, formatting the formatted code again (CRLF replacement,
split, re-indentation, join) returns it unchanged. -/
theorem formattedCode_idempotent (code : String) :
    formattedCode (formattedCode code (.str "javascript")) (.str "javascript")
        = formattedCode code (.str "javascript")
      ∧ formattedCode (formattedCode code (.str "typescript")) (.str "typescript")
        = formattedCode code (.str "typescript") := by
  have h := formatLines_fixed (splitNewline (replaceCrLf code.data)) (splitNewline_ne_nil _)
    (splitNewline_no_newline _)
  constructor
  · simp only [formattedCode, JVal.strictEqStr, beq_self_eq_true, Bool.true_or, if_true, h]
  · simp only [formattedCode, JVal.strictEqStr, beq_self_eq_true, Bool.or_true, if_true, h]

/-! ### The inner try block -/

theorem renderPage_response (env : Env) (o : Outcomes) (now : Nat) (key doc : String)
    (w : World) :
    (renderPage env o now key doc w).1
      = match renderResult env o w with
        | .ok image => .png image
        | .error e => browserFailure e := by
  unfold renderPage renderResult
  rcases hg : getBrowser env o.session w with ⟨r, w₁⟩
  cases r <;> cases hn : o.newPage <;> cases hv : o.setViewport <;> cases hs : o.setContent <;>
    cases hq : o.query <;> cases hi : o.screenshot <;> cases hc : o.close <;>
    simp [bind, Except.bind, pure, Except.pure, throw, throwThe, MonadExceptOf.throw] <;>
    (rename_i found _ _ ; cases found <;> simp [pure, Except.pure])

theorem getBrowser_openPages (env : Env) (o : LaunchOutcome) (w : World) :
    (getBrowser env o w).2.openPages = w.openPages := by
  unfold getBrowser
  cases w.browser <;> cases w.browserError <;> cases o.executablePath <;> cases o.launch <;> rfl

theorem renderPage_openPages (env : Env) (o : Outcomes) (now : Nat) (key doc : String)
    (w : World) (h : Handle) (page : Page)
    (hg : (getBrowser env o.session w).1 = .ok h) (hp : o.newPage = .ok page) :
    (renderPage env o now key doc w).2.openPages
      = match renderResult env o w with
        | .ok _ => w.openPages
        | .error _ => page :: w.openPages := by
  have hpages := getBrowser_openPages env o.session w
  unfold renderPage renderResult
  rcases hgb : getBrowser env o.session w with ⟨r, w₁⟩
  rw [hgb] at hg hpages
  simp only at hg hpages
  subst hg
  simp only [hp]
  cases hv : o.setViewport <;> cases hs : o.setContent <;>
    cases hq : o.query <;> cases hi : o.screenshot <;> cases hc : o.close <;>
    simp [bind, Except.bind, pure, Except.pure, throw, throwThe, MonadExceptOf.throw,
      hpages] <;>
    (rename_i found _ _ ; cases found <;> simp [pure, Except.pure, hpages])

/-- C11 (what the code does at the failing input): a request opens page 5 and `setContent`
then rejects; the handler answers 500 from its catch block and returns with the page still
open, `page.close()` never having been called: the close is the last statement of the try
block, not a finally clause. -/
theorem postImage_leaves_page_open :
    (postImage sampleEnv (setContentFails 1 5 ⟨"Navigation timeout of 30000 ms exceeded"⟩) 0
        [("code", .str "let x = 1")] World.initial).1
        = .json 500 [("error", "Image generation failed"),
            ("message", "Browser error: Navigation timeout of 30000 ms exceeded")]
      ∧ (postImage sampleEnv (setContentFails 1 5 ⟨"Navigation timeout of 30000 ms exceeded"⟩) 0
          [("code", .str "let x = 1")] World.initial).2.openPages = [5]
      ∧ Event.newPage 5 ∈ (postImage sampleEnv
          (setContentFails 1 5 ⟨"Navigation timeout of 30000 ms exceeded"⟩) 0
          [("code", .str "let x = 1")] World.initial).2.log
      ∧ Event.closePage 5 ∉ (postImage sampleEnv
          (setContentFails 1 5 ⟨"Navigation timeout of 30000 ms exceeded"⟩) 0
          [("code", .str "let x = 1")] World.initial).2.log
      ∧ (postImage sampleEnv (renderOk 1 5 [137, 80]) 0
          [("code", .str "let x = 1")] World.initial).2.openPages = [] := by
  refine ⟨rfl, rfl, ?_, ?_, rfl⟩
  · decide
  · decide

/-- C12 (as stated, refuted at the language `does-not-exist`): the request has non-empty
code and misses the cache, highlighting throws `Unknown language`, and the handler answers
500 with the body `error: Image generation failed` only; the body has no `message` field
and the cause text is not in the response. -/
theorem postImage_highlight_failure :
    strictEnv.highlight (formattedCode "let x = 1" (.str "does-not-exist"))
        (.str "does-not-exist") = .error ⟨"Unknown language"⟩
      ∧ postImage strictEnv (renderOk 1 1 [137, 80]) 0
          [("code", .str "let x = 1"), ("language", .str "does-not-exist")] World.initial
        = (.json 500 [("error", "Image generation failed")], World.initial)
      ∧ (postImage strictEnv (renderOk 1 1 [137, 80]) 0
          [("code", .str "let x = 1"), ("language", .str "does-not-exist")] World.initial).1.field
            "message" = none := by
  exact ⟨rfl, rfl, rfl⟩

/-- C12 (amended): for every request with non-empty `code` that misses the cache, a failure
before the page steps (theme or background resolution, a code value that is not a string,
highlighting, document composition) is answered with status 500 and the body
`error: Image generation failed` alone, the state untouched; a failure in session
acquisition, page opening, viewport, content-set, element lookup, rasterization or page
close is answered with status 500 and a body holding that `error` and a `message` that is
`Browser error: ` followed by the cause text; image bytes are sent only when no step
fails. -/
theorem postImage_failure_response (env : Env) (o : Outcomes) (now : Nat) (body : Body)
    (w : World) (c : JVal) (hc : body.lookup "code" = some c) (ht : c.truthy = true)
    (hmiss : cacheGet w.cache (cacheKey env body) now = none) :
    (postImage env o now body w).1
        = (match compose env (destructure body) c with
           | .error _ => .json 500 [("error", "Image generation failed")]
           | .ok _ =>
             match renderResult env o w with
             | .error e => .json 500 [("error", "Image generation failed"),
                 ("message", "Browser error: " ++ e.message)]
             | .ok image => .png image)
      ∧ (postImage env o now body w).2
        = (match compose env (destructure body) c with
           | .error _ => w
           | .ok doc => (renderPage env o now (cacheKey env body) doc.html w).2) := by
  rw [postImage_miss env o now body w c hc ht hmiss]
  cases hdoc : compose env (destructure body) c with
  | error e => exact ⟨rfl, rfl⟩
  | ok doc =>
    refine ⟨?_, rfl⟩
    simp only
    rw [renderPage_response]
    cases renderResult env o w <;> rfl

/-- Witness of C12 (amended): a request whose page fails at `setContent`. -/
theorem postImage_failure_response_witness :
    (postImage sampleEnv (setContentFails 1 5 ⟨"Navigation timeout of 30000 ms exceeded"⟩) 0
        [("code", .str "let x = 1")] World.initial).1
      = (match compose sampleEnv (destructure [("code", .str "let x = 1")]) (.str "let x = 1") with
         | .error _ => .json 500 [("error", "Image generation failed")]
         | .ok _ =>
           match renderResult sampleEnv
              (setContentFails 1 5 ⟨"Navigation timeout of 30000 ms exceeded"⟩) World.initial with
           | .error e => .json 500 [("error", "Image generation failed"),
               ("message", "Browser error: " ++ e.message)]
           | .ok image => .png image) :=
  (postImage_failure_response sampleEnv
    (setContentFails 1 5 ⟨"Navigation timeout of 30000 ms exceeded"⟩) 0
    [("code", .str "let x = 1")] World.initial (.str "let x = 1") rfl rfl rfl).1

/-! ### chromeLauncher.js -/

theorem primaryAttempt_length (env : LauncherEnv) (o : LauncherOutcome) :
    (primaryAttempt env o).2.length ≤ 1 := by
  unfold primaryAttempt
  cases o.executablePath <;> cases isVercelServerless env <;> cases env.chromiumArgs <;> simp

theorem primaryAttempt_not_fallback (env : LauncherEnv) (o : LauncherOutcome) :
    fallbackOptions ∉ (primaryAttempt env o).2 := by
  unfold primaryAttempt
  cases o.executablePath <;> cases isVercelServerless env <;> cases env.chromiumArgs <;>
    simp [fallbackOptions, primaryOptions]

/-- C13: the launch behaviour of `getChromiumBrowser` follows `isVercelServerless` (`VERCEL`
or `AWS_LAMBDA_FUNCTION_NAME` non-empty).  In the serverless context the result and the
launch calls are exactly those of the primary attempt (a failure is thrown, nothing is
retried), and the launch made has the base arguments followed by the serverless flags,
which contain `--no-sandbox`, `--disable-setuid-sandbox`, `--single-process` and
`--disable-gpu`.  In the local context a successful primary attempt is returned as is; a
failed one is followed by exactly one fallback launch with the local options, whose handle is
returned when it succeeds, while the primary error is thrown when it fails too. -/
theorem getChromiumBrowser_by_environment (envC envL : LauncherEnv) (o : LauncherOutcome)
    (base : List String) (hC : isVercelServerless envC = true)
    (hL : isVercelServerless envL = false) (hargs : envC.chromiumArgs = some base) :
    isVercelServerless envC = (envTruthy envC.vercel || envTruthy envC.awsLambdaFunctionName)
      ∧ getChromiumBrowser envC o = primaryAttempt envC o
      ∧ (primaryAttempt envC o).2
          = (match o.executablePath with
             | .ok path => [{ primaryOptions envC path with args := some (base ++ serverlessFlags) }]
             | .error _ => [])
      ∧ (primaryAttempt envC o).1
          = (match o.executablePath with
             | .ok _ => o.primary
             | .error e => .error e)
      ∧ (["--no-sandbox", "--disable-setuid-sandbox", "--single-process", "--disable-gpu"]
          ⊆ serverlessFlags)
      ∧ getChromiumBrowser envL o
          = (match primaryAttempt envL o with
             | (.ok h, calls) => (.ok h, calls)
             | (.error e, calls) =>
               (match o.fallback with
                | .ok h => .ok h
                | .error _ => .error e, calls ++ [fallbackOptions]))
      ∧ (primaryAttempt envL o).2.length ≤ 1
      ∧ fallbackOptions ∉ (primaryAttempt envL o).2 := by
  refine ⟨rfl, ?_, ?_, ?_, by decide, ?_, primaryAttempt_length envL o,
    primaryAttempt_not_fallback envL o⟩
  · unfold getChromiumBrowser
    rcases hp : primaryAttempt envC o with ⟨r, calls⟩
    cases r <;> simp [hC]
  · unfold primaryAttempt
    cases o.executablePath <;> simp [hC, hargs]
  · unfold primaryAttempt
    cases o.executablePath <;> simp [hC, hargs]
  · unfold getChromiumBrowser
    rcases hp : primaryAttempt envL o with ⟨r, calls⟩
    cases r <;> cases o.fallback <;> simp [hL]

/-- Witness of C13: the sample serverless and local environments, with a primary launch
that fails and a fallback that succeeds. -/
theorem getChromiumBrowser_by_environment_witness :
    getChromiumBrowser serverlessEnv
        { executablePath := .ok (some "/tmp/chromium"), primary := .error ⟨"spawn EACCES"⟩,
          fallback := .ok 3 }
      = primaryAttempt serverlessEnv
        { executablePath := .ok (some "/tmp/chromium"), primary := .error ⟨"spawn EACCES"⟩,
          fallback := .ok 3 } :=
  (getChromiumBrowser_by_environment serverlessEnv localEnv
    { executablePath := .ok (some "/tmp/chromium"), primary := .error ⟨"spawn EACCES"⟩,
      fallback := .ok 3 }
    ["--hide-scrollbars", "--mute-audio"] rfl rfl rfl).2.1

end CodeToImage
